import Mathlib

/-!
# Chat front-end `static/app.js`: threads, messages and the pending session

A shallow embedding of the state machine of `static/app.js`.

The five module variables `chats`, `currentChatId`, `pendingAction`,
`pendingState`, `originalQuery` and the `disabled` flag of the input surface
form the `State`; every function of the script that changes them is a Lean
function on `State`.  Reads of the clock (`Date.now()`, `new Date()`) are
explicit arguments, as are the text typed by the user and the outcome of the
`fetch` call.

Conventions of the embedding.

* A JavaScript string is the list of its UTF-16 code units (`JsString`);
  `length` and `substring` count code units, and `utf16` turns a literal of
  the script into its code units.
* A call of a function of the script ends by returning or by throwing; a
  `Result` holds the state in which the call leaves the script and the
  message of the error that escapes from it, if one does.  The errors of
  the script come from `renderMessages`, which calls `replace` on the content
  of every message of the active thread, and from `addMessage`, which calls
  `substring` on the content of a first `user` message; both methods exist
  on strings only.
* `chats` is the list of the own properties of the object in the order of
  `Object.keys`.  The keys of an object are pairwise different; the functions
  below keep them so (`run_keys_nodup`) and a statement that needs it says
  so.  Keys made by `createNewChat` start with `chat_`, hence are not array
  indices and are enumerated in insertion order.
* What the engine supplies, the method `toUpperCase` and the wording of its
  `TypeError` messages, is a `Host`; statements hold for every host, examples
  are evaluated with `asciiHost`.
* A time value is the number of milliseconds it denotes; `toISOString`
  and `new Date(iso)` translate it back and forth without loss.
* The rest of the DOM (`renderChatList`, `alert`) and `localStorage` do not
  feed back into the five variables and are left out, except for the order in
  which `renderChatList` lists the threads.
* `sendMessage` is cut at its `await`: `sendMessageStart` runs up to the
  request, `sendMessageFinish` from the settled call on, and other events may
  come between the two.  `Page` adds the requests in flight to the state.
-/

namespace ChatApp

set_option maxRecDepth 8000

/-! ## Strings -/

/-- A JavaScript string: the list of its UTF-16 code units. -/
abbrev JsString := List Nat

/-- The code units of one character: itself in the basic plane, a surrogate
pair above it. -/
def utf16Units (c : Char) : List Nat :=
  if c.toNat < 0x10000 then [c.toNat]
  else [0xD800 + (c.toNat - 0x10000) / 0x400, 0xDC00 + (c.toNat - 0x10000) % 0x400]

/-- The JavaScript string that a string literal denotes. -/
def utf16 (s : String) : JsString :=
  s.data.foldr (fun c rest => utf16Units c ++ rest) []

/-- The call `key.replace(/_/g, ' ')`. -/
def replaceUnderscores (s : JsString) : JsString :=
  s.map fun u => if u = 95 then 32 else u

/-- The white space and line terminators that `String.prototype.trim`
strips. -/
def isJsWhiteSpace (u : Nat) : Bool :=
  u ∈ [0x09, 0x0A, 0x0B, 0x0C, 0x0D, 0x20, 0xA0, 0x1680, 0x2000, 0x2001, 0x2002,
    0x2003, 0x2004, 0x2005, 0x2006, 0x2007, 0x2008, 0x2009, 0x200A, 0x2028, 0x2029, 0x202F,
    0x205F, 0x3000, 0xFEFF]

/-- The call `input.value.trim()`. -/
def trim (s : JsString) : JsString :=
  ((s.dropWhile isJsWhiteSpace).reverse.dropWhile isJsWhiteSpace).reverse

/-- Upper-casing of the letters `a` to `z`; `toUpperCase` agrees with it on the
strings made of ASCII characters. -/
def asciiUpper (s : JsString) : JsString :=
  s.map fun u => if 97 ≤ u ∧ u ≤ 122 then u - 32 else u

/-- The number a string of decimal digits denotes. -/
def digitsValue (s : JsString) : Nat :=
  s.foldl (fun n u => 10 * n + (u - 48)) 0

/-- The array index a property key is, if it is one: the key is the decimal
form, without leading zeros, of an integer from 0 to 2^32 - 2. -/
def arrayIndex (key : JsString) : Option Nat :=
  if key ≠ [] ∧ (key.all fun u => decide (48 ≤ u ∧ u ≤ 57)) = true ∧
      (key = [48] ∨ key.head? ≠ some 48) ∧ digitsValue key < 4294967295 then
    some (digitsValue key)
  else none

/-! ## Values -/

/-- A JavaScript value, as far as the script inspects one: its kind, whether
it counts as true in a condition, and the text it is converted to inside a
template literal.  Numbers and objects keep exactly that much. -/
inductive JsVal where
  | undefined
  | null
  | bool (b : Bool)
  | num (isZeroOrNaN : Bool) (rendering : JsString)
  | str (s : JsString)
  | obj (rendering : JsString)
  deriving DecidableEq, Repr

namespace JsVal

/-- The condition `if (v)`: `undefined`, `null`, `false`, `0`, `NaN` and the
empty string are false, everything else is true. -/
def truthy : JsVal → Bool
  | undefined => false
  | null => false
  | bool b => b
  | num z _ => !z
  | str s => decide (s ≠ [])
  | obj _ => true

/-- The conversion to a string done by a template literal or by `+`. -/
def toStr : JsVal → JsString
  | undefined => utf16 "undefined"
  | null => utf16 "null"
  | bool true => utf16 "true"
  | bool false => utf16 "false"
  | num _ r => r
  | str s => s
  | obj r => r

/-- The value is a string, so that it has the methods `replace` and
`substring`. -/
def isString : JsVal → Bool
  | str _ => true
  | _ => false

/-- A field is absent when it is `null` or `undefined`. -/
def absent (v : JsVal) : Prop := v = null ∨ v = undefined

instance (v : JsVal) : Decidable (absent v) := by
  unfold absent; exact inferInstance

end JsVal

/-- What the script takes from the engine that runs it: the method
`toUpperCase` of strings, and the `message` of the `TypeError` raised when the
method `method` is called on a value that does not have it. -/
structure Host where
  toUpperCase : JsString → JsString
  typeErrorMessage : JsVal → JsString → JsString

/-- A host that upper-cases the letters `a` to `z` and words its errors like
`replace is not a function`. -/
def asciiHost : Host :=
  { toUpperCase := asciiUpper
    typeErrorMessage := fun _ method => method ++ utf16 " is not a function" }

/-- The values `currentChatId` and the `chatId` arguments take: `null` (the
initial value), `undefined` (the first element of an empty array) or a
string. -/
inductive ChatId where
  | null
  | undefined
  | str (s : JsString)
  deriving DecidableEq, Repr

/-- The property key a value denotes in `chats[chatId]`. -/
def ChatId.key : ChatId → JsString
  | .null => utf16 "null"
  | .undefined => utf16 "undefined"
  | .str s => s

/-- One entry of `chat.messages`. -/
structure Message where
  role : JsString
  content : JsVal
  timestamp : Nat
  deriving DecidableEq, Repr

/-- One value of the `chats` object. -/
structure ChatThread where
  id : JsString
  title : JsString
  messages : List Message
  created : Nat
  deriving DecidableEq, Repr

/-- The `chats` object: its own properties in `Object.keys` order. -/
abbrev Chats := List (JsString × ChatThread)

/-- The module variables of the script and the `disabled` flag that
`setInputEnabled` writes to the input field and the send button. -/
structure State where
  chats : Chats
  currentChatId : ChatId
  pendingAction : JsVal
  pendingState : JsVal
  originalQuery : JsVal
  inputDisabled : Bool
  deriving DecidableEq, Repr

/-- How a call of a function of the script ends: the state it leaves, and the
message of the error it throws, if it does not return. -/
structure Result where
  state : State
  thrown : Option JsString
  deriving DecidableEq, Repr

/-- The statements that follow a call run only if the call returned. -/
def Result.andThen (r : Result) (rest : State → Result) : Result :=
  match r.thrown with
  | some error => { state := r.state, thrown := some error }
  | none => rest r.state

/-- The parsed reply `data` of the service.  `content` is the list of the own
properties of `data.content` in the order in which they were created, which
for a parsed reply is the order of the payload; a field that the reply lacks
reads as `undefined`.  A reply without `content` is not of this type: under
each of the seven tags the first thing `handleResponse` does is to read a
property of `data.content`, which then throws before any change, and
`sendMessage` ends in its `catch` block as in `Outcome.failed`. -/
structure Response where
  type : JsVal
  content : List (JsString × JsVal)
  pending_action : JsVal
  pending_state : JsVal
  original_query : JsVal
  deriving DecidableEq, Repr

/-- The body of the `POST /chat` request. -/
structure Request where
  query : JsString
  chat_id : ChatId
  conversation_history : List Message
  pending_action : JsVal
  pending_state : JsVal
  original_query : JsVal
  deriving DecidableEq, Repr

/-- How the awaited part of `sendMessage` ends: `fetch` or `response.json()`
throws an error with the given `message` (or the reply has no `content` to
read), or `data` is parsed and handled. -/
inductive Outcome where
  | failed (errorMessage : JsString)
  | replied (data : Response)
  deriving DecidableEq, Repr

/-! ## Property access on `chats` and on `data.content` -/

/-- The read `chats[key]`; `none` stands for `undefined`. -/
def Chats.get (key : JsString) : Chats → Option ChatThread
  | [] => none
  | (k, v) :: rest => if k = key then some v else Chats.get key rest

/-- The write `chats[key] = chat`: an existing property keeps its place, a new
one goes last. -/
def Chats.set (key : JsString) (chat : ChatThread) : Chats → Chats
  | [] => [(key, chat)]
  | (k, v) :: rest =>
    if k = key then (k, chat) :: rest else (k, v) :: Chats.set key chat rest

/-- The statement `delete chats[key]`. -/
def Chats.delete (key : JsString) : Chats → Chats
  | [] => []
  | (k, v) :: rest => if k = key then rest else (k, v) :: Chats.delete key rest

/-- The expression `Object.keys(chats)[0]`. -/
def Chats.firstKey : Chats → ChatId
  | [] => .undefined
  | (k, _) :: _ => .str k

/-- The keys of the store, in `Object.keys` order. -/
def Chats.keys (c : Chats) : List JsString := c.map Prod.fst

/-- The read `content.field` on the reply. -/
def field (name : JsString) : List (JsString × JsVal) → JsVal
  | [] => .undefined
  | (k, v) :: rest => if k = name then v else field name rest

/-- The call `Object.entries(ticket)` on an object whose properties were
created in the order given: the properties whose keys are array indices come
first, by ascending index, the others follow in the order of creation. -/
def objectEntries (properties : List (JsString × JsVal)) : List (JsString × JsVal) :=
  (properties.filter fun kv => (arrayIndex kv.1).isSome).insertionSort
      (fun a b => (arrayIndex a.1).getD 0 ≤ (arrayIndex b.1).getD 0)
    ++ properties.filter fun kv => (arrayIndex kv.1).isNone

/-! ## The functions of the script -/

/-- The messages all have a string as content. -/
def stringsOnly (messages : List Message) : Bool :=
  messages.all fun m => m.content.isString

/-- `renderMessages()`: nothing to show without an active thread; otherwise
every message of the thread is formatted with `msg.content.replace`, which
throws at the first message whose content is not a string.  The value is the
message of that error, if there is one. -/
def renderMessages (host : Host) (s : State) : Option JsString :=
  match s.chats.get s.currentChatId.key with
  | none => none
  | some chat =>
    match chat.messages.find? fun m => !m.content.isString with
    | none => none
    | some m => some (host.typeErrorMessage m.content (utf16 "replace"))

/-- The state in which `addMessage(role, content)` leaves the script, whether
it returns or throws: the message is pushed on the active thread, and the
title is derived when this is the first `user` message and its content is a
string. -/
def pushMessage (now : Nat) (role : JsString) (content : JsVal) (s : State) : State :=
  match s.chats.get s.currentChatId.key with
  | none => s
  | some chat =>
    let messages := chat.messages ++ [{ role := role, content := content, timestamp := now }]
    let title :=
      if role = utf16 "user" ∧ (messages.filter fun m => m.role = utf16 "user").length = 1 then
        match content with
        | .str c => c.take 30 ++ (if c.length > 30 then utf16 "..." else [])
        | _ => chat.title
      else chat.title
    let chat1 : ChatThread := { chat with messages := messages, title := title }
    { s with chats := s.chats.set s.currentChatId.key chat1 }

/-- `addMessage(role, content)`, with `now` the time read for the timestamp.
Without an active thread it returns at once.  Otherwise it pushes the
message; for the first `user` message it calls `content.substring`, which
throws when `content` is not a string; it stores the chats and ends with
`renderMessages()`, which throws when a message of the thread, the new one
included, has a content that is not a string. -/
def addMessage (host : Host) (now : Nat) (role : JsString) (content : JsVal) (s : State) :
    Result :=
  match s.chats.get s.currentChatId.key with
  | none => { state := s, thrown := none }
  | some chat =>
    if role = utf16 "user" ∧
        ((chat.messages ++ [(⟨role, content, now⟩ : Message)]).filter
          fun m => m.role = utf16 "user").length = 1 ∧ content.isString = false then
      { state := pushMessage now role content s
        thrown := some (host.typeErrorMessage content (utf16 "substring")) }
    else
      { state := pushMessage now role content s
        thrown := renderMessages host (pushMessage now role content s) }

/-- `addSystemMessage(content)`. -/
def addSystemMessage (host : Host) (now : Nat) (content : JsString) (s : State) : Result :=
  addMessage host now (utf16 "system") (.str content) s

/-- `switchToChat(chatId)`; `now` is the time read if the cancellation notice
is appended.  When `addSystemMessage` throws, the three assignments that clear
the session and the assignment to `currentChatId` are not reached.  The call
ends with `renderMessages()` on the thread switched to. -/
def switchToChat (host : Host) (now : Nat) (chatId : ChatId) (s : State) : Result :=
  if s.currentChatId = chatId then { state := s, thrown := none }
  else if s.pendingAction.truthy then
    (addSystemMessage host now (utf16 "Pending action cancelled.") s).andThen fun s1 =>
      { state :=
          { s1 with
            pendingAction := .null, pendingState := .null, originalQuery := .null,
            currentChatId := chatId }
        thrown := renderMessages host
          { s1 with
            pendingAction := .null, pendingState := .null, originalQuery := .null,
            currentChatId := chatId } }
  else
    { state := { s with currentChatId := chatId }
      thrown := renderMessages host { s with currentChatId := chatId } }

/-- `createNewChat()`: `idClock` is the value of `Date.now()`, `createdClock`
that of `new Date()`, `now` the time passed on to `switchToChat`. -/
def createNewChat (host : Host) (idClock createdClock now : Nat) (s : State) : Result :=
  let chatId := utf16 "chat_" ++ utf16 (toString idClock)
  let chat : ChatThread :=
    { id := chatId, title := utf16 "New Chat", messages := [], created := createdClock }
  let s1 := { s with chats := s.chats.set chatId chat }
  switchToChat host now (.str chatId) s1

/-- `deleteChat(chatId)`. -/
def deleteChat (host : Host) (now : Nat) (chatId : ChatId) (s : State) : Result :=
  if s.chats.length = 1 then { state := s, thrown := none }
  else
    let s1 := { s with chats := s.chats.delete chatId.key }
    if s1.currentChatId = chatId then switchToChat host now s1.chats.firstKey s1
    else { state := s1, thrown := none }

/-- The order in which `renderChatList` shows the threads:
`Object.values(chats)` sorted by `created`, latest first; the sort is stable. -/
def renderChatList (chats : Chats) : List ChatThread :=
  (chats.map Prod.snd).insertionSort fun a b => b.created ≤ a.created

/-- `setInputEnabled(enabled)`. -/
def setInputEnabled (enabled : Bool) (s : State) : State :=
  { s with inputDisabled := !enabled }

/-- The three assignments that end a case of `handleResponse`. -/
def setSession (action state query : JsVal) (s : State) : State :=
  { s with pendingAction := action, pendingState := state, originalQuery := query }

/-- The text built for `TICKET_GENERATED` and `TICKET_UPDATED`: the header,
one paragraph per entry of the ticket, the closing question. -/
def ticketMessage (host : Host) (header : JsString) (ticket : List (JsString × JsVal)) :
    JsString :=
  (objectEntries ticket).foldl
      (fun msg kv => msg ++ (utf16 "**" ++ host.toUpperCase (replaceUnderscores kv.1)
        ++ utf16 ":** " ++ kv.2.toStr ++ utf16 "\n\n"))
      header
    ++ utf16 "Do you want to modify the ticket?"

/-- `handleResponse(data)`: `now` is the time read by the one `addMessage` of
the case taken.  When that `addMessage` throws, the three assignments to the
session variables that follow it are not reached. -/
def handleResponse (host : Host) (now : Nat) (data : Response) (s : State) : Result :=
  if data.type = .str (utf16 "INFO_QUERY") then
    (addMessage host now (utf16 "assistant") (field (utf16 "answer") data.content) s).andThen
      fun s1 => { state := setSession .null .null .null s1, thrown := none }
  else if data.type = .str (utf16 "CONFIRMATION_NEEDED") then
    (addMessage host now (utf16 "assistant") (field (utf16 "message") data.content) s).andThen
      fun s1 =>
        { state := setSession data.pending_action data.pending_state data.original_query s1
          thrown := none }
  else if data.type = .str (utf16 "TICKET_GENERATED") then
    (addMessage host now (utf16 "assistant")
      (.str (ticketMessage host (utf16 "**Generated Ticket:**\n\n") data.content)) s).andThen
      fun s1 =>
        { state := setSession data.pending_action data.pending_state data.original_query s1
          thrown := none }
  else if data.type = .str (utf16 "TICKET_UPDATED") then
    (addMessage host now (utf16 "assistant")
      (.str (ticketMessage host (utf16 "**Updated Ticket:**\n\n") data.content)) s).andThen
      fun s1 =>
        { state := setSession data.pending_action data.pending_state data.original_query s1
          thrown := none }
  else if data.type = .str (utf16 "TICKET_EXPORTED") then
    (addMessage host now (utf16 "assistant") (field (utf16 "message") data.content) s).andThen
      fun s1 => { state := setSession .null .null .null s1, thrown := none }
  else if data.type = .str (utf16 "CUSTOM_DESC_PROMPT") then
    (addMessage host now (utf16 "assistant") (field (utf16 "message") data.content) s).andThen
      fun s1 =>
        { state := setSession data.pending_action data.pending_state data.original_query s1
          thrown := none }
  else if data.type = .str (utf16 "CLARIFICATION_NEEDED") then
    (addMessage host now (utf16 "assistant") (field (utf16 "message") data.content) s).andThen
      fun s1 =>
        { state := setSession data.pending_action data.pending_state data.original_query s1
          thrown := none }
  else { state := s, thrown := none }

/-- The part of `sendMessage(…)` that runs before the script waits for `fetch`:
how it ends and the request it issues.  `rawInput` is `input.value`.  With an
empty query nothing happens.  `addMessage('user', query)` stands before `try`:
when it throws, the error leaves `sendMessage`, the input is not disabled and
no request is made.  When `chats[currentChatId]` is missing, building the
request body throws inside `try`: no request leaves, the `catch` block calls
`addMessage`, which returns at once, and `finally` enables the input again. -/
def sendMessageStart (host : Host) (now : Nat) (rawInput : JsString) (s : State) :
    Result × Option Request :=
  if trim rawInput = [] then ({ state := s, thrown := none }, none)
  else
    match (addMessage host now (utf16 "user") (.str (trim rawInput)) s).thrown with
    | some error =>
      ({ state := (addMessage host now (utf16 "user") (.str (trim rawInput)) s).state
         thrown := some error }, none)
    | none =>
      match (addMessage host now (utf16 "user") (.str (trim rawInput)) s).state.chats.get
          s.currentChatId.key with
      | none =>
        ({ state := setInputEnabled true (setInputEnabled false
            (addMessage host now (utf16 "user") (.str (trim rawInput)) s).state)
           thrown := none }, none)
      | some chat =>
        ({ state := setInputEnabled false
            (addMessage host now (utf16 "user") (.str (trim rawInput)) s).state
           thrown := none },
          some
            { query := trim rawInput
              chat_id := s.currentChatId
              conversation_history := chat.messages
              pending_action := s.pendingAction
              pending_state := s.pendingState
              original_query := s.originalQuery })

/-- The `catch` block and the `finally` block of `sendMessage`: the error is
shown as an assistant message, and the input is enabled also when showing it
throws. -/
def catchAndFinally (host : Host) (now : Nat) (errorMessage : JsString) (s : State) : Result :=
  { state := setInputEnabled true
      (addMessage host now (utf16 "assistant") (.str (utf16 "Error: " ++ errorMessage)) s).state
    thrown :=
      (addMessage host now (utf16 "assistant") (.str (utf16 "Error: " ++ errorMessage)) s).thrown }

/-- The part of `sendMessage(…)` that runs once the awaited call has settled.
On a parsed reply `handleResponse(data)` runs with the clock at `now`; if it
throws, the `catch` block runs with the clock at `catchClock`.  On an error of
the call the `catch` block runs with the clock at `now`.  `finally` enables
the input in every case. -/
def sendMessageFinish (host : Host) (now catchClock : Nat) (outcome : Outcome) (s : State) :
    Result :=
  match outcome with
  | .replied data =>
    match (handleResponse host now data s).thrown with
    | none => { state := setInputEnabled true (handleResponse host now data s).state, thrown := none }
    | some error => catchAndFinally host catchClock error (handleResponse host now data s).state
  | .failed errorMessage => catchAndFinally host now errorMessage s

/-- One whole turn of `sendMessage(…)` with nothing happening while the script
waits: `userClock` stamps the message of the user, `replyClock` and
`catchClock` are the clocks of `sendMessageFinish`. -/
def sendMessage (host : Host) (userClock replyClock catchClock : Nat) (rawInput : JsString)
    (outcome : Outcome) (s : State) : Result :=
  match sendMessageStart host userClock rawInput s with
  | (r, none) => r
  | (r, some _) => sendMessageFinish host replyClock catchClock outcome r.state

/-- The state of the script when it is loaded. -/
def initialState : State :=
  { chats := [], currentChatId := .null, pendingAction := .null, pendingState := .null,
    originalQuery := .null, inputDisabled := false }

/-- The state changes of the `DOMContentLoaded` handler: `stored` is the
parsed content of the storage key `chats`, if there is one. -/
def onLoad (host : Host) (stored : Option Chats) (idClock createdClock now : Nat) : Result :=
  match stored with
  | some chats =>
    if chats.length = 0 then
      createNewChat host idClock createdClock now { initialState with chats := chats }
    else switchToChat host now chats.firstKey { initialState with chats := chats }
  | none => createNewChat host idClock createdClock now initialState

/-! ## Events -/

/-- What can happen to the page: a click on the new-chat button, on a title
or on a delete button of the list, a message sent, and the two ways in which
an awaited call settles. -/
inductive Event where
  | createNewChat (idClock createdClock now : Nat)
  | switchToChat (now : Nat) (chatId : ChatId)
  | deleteChat (now : Nat) (chatId : ChatId)
  | sendMessage (now : Nat) (rawInput : JsString)
  | handleResponse (now catchClock : Nat) (data : Response)
  | requestFailed (now : Nat) (errorMessage : JsString)
  deriving DecidableEq, Repr

/-- The state in which one event leaves the script. -/
def Event.apply (host : Host) (s : State) : Event → State
  | .createNewChat idClock createdClock now =>
    (ChatApp.createNewChat host idClock createdClock now s).state
  | .switchToChat now chatId => (ChatApp.switchToChat host now chatId s).state
  | .deleteChat now chatId => (ChatApp.deleteChat host now chatId s).state
  | .sendMessage now rawInput => (sendMessageStart host now rawInput s).1.state
  | .handleResponse now catchClock data =>
    (sendMessageFinish host now catchClock (.replied data) s).state
  | .requestFailed now errorMessage =>
    (sendMessageFinish host now now (.failed errorMessage) s).state

/-- The state after a sequence of events, the first of the list first. -/
def run (host : Host) (s : State) (events : List Event) : State :=
  events.foldl (Event.apply host) s

/-! ## Observations on a state -/

/-- The session is neutral: the three fields are absent. -/
def sessionCleared (s : State) : Prop :=
  s.pendingAction.absent ∧ s.pendingState.absent ∧ s.originalQuery.absent

/-- The session is populated: the three fields are present. -/
def sessionPopulated (s : State) : Prop :=
  ¬ s.pendingAction.absent ∧ ¬ s.pendingState.absent ∧ ¬ s.originalQuery.absent

instance (s : State) : Decidable (sessionCleared s) := by
  unfold sessionCleared; exact inferInstance

instance (s : State) : Decidable (sessionPopulated s) := by
  unfold sessionPopulated; exact inferInstance

/-- The messages of the thread stored under `key`; none if there is no such
thread. -/
def messagesOf (key : JsString) (s : State) : List Message :=
  match s.chats.get key with
  | some chat => chat.messages
  | none => []

/-- The event is a call of `createNewChat` or of `deleteChat`. -/
def Event.isCreateOrDelete : Event → Bool
  | .createNewChat _ _ _ => true
  | .deleteChat _ _ => true
  | _ => false

/-- The session triple `(pendingAction, pendingState, originalQuery)`. -/
def State.session (s : State) : JsVal × JsVal × JsVal :=
  (s.pendingAction, s.pendingState, s.originalQuery)

/-- The three fields are all absent or all present. -/
def sessionAtomic (s : State) : Prop :=
  sessionCleared s ∨ sessionPopulated s

instance (s : State) : Decidable (sessionAtomic s) := by
  unfold sessionAtomic; exact inferInstance

/-- The reply carries `pending_action`, `pending_state` and `original_query`
all three or none of them. -/
def Response.sessionAtomic (r : Response) : Prop :=
  (r.pending_action.absent ∧ r.pending_state.absent ∧ r.original_query.absent) ∨
  (¬ r.pending_action.absent ∧ ¬ r.pending_state.absent ∧ ¬ r.original_query.absent)

instance (r : Response) : Decidable r.sessionAtomic := by
  unfold Response.sessionAtomic; exact inferInstance

/-- Every reply that the event hands to `handleResponse` carries the three
session fields together. -/
def Event.atomicReply : Event → Prop
  | .handleResponse _ _ data => data.sessionAtomic
  | _ => True

instance (e : Event) : Decidable e.atomicReply := by
  cases e <;> unfold Event.atomicReply <;> exact inferInstance

/-- The test `if (pendingAction)` by which `switchToChat` decides that an
action is pending. -/
def isPending (s : State) : Bool := s.pendingAction.truthy

/-- The notice that `deleteChat` shows with `alert` before it returns without
a change, if it does. -/
def deleteChatAlert (s : State) : Option JsString :=
  if s.chats.length = 1 then some (utf16 "Cannot delete the last chat") else none

/-- The title of the thread stored under `key`, if there is such a thread. -/
def titleOf (key : JsString) (s : State) : Option JsString :=
  (s.chats.get key).map fun chat => chat.title

/-- The message that `switchToChat` appends when it cancels a pending
action. -/
def cancellationNotice (now : Nat) : Message :=
  { role := utf16 "system", content := .str (utf16 "Pending action cancelled."),
    timestamp := now }

/-- Every thread of `s` is a thread of `t`, and the messages it held in `s`
are the first messages it holds in `t`, in the same order. -/
def messagesKept (s t : State) : Prop :=
  ∀ (key : JsString) (chat : ChatThread), s.chats.get key = some chat →
    ∃ chat1, t.chats.get key = some chat1 ∧ chat.messages <+: chat1.messages

/-- `currentChatId` is a string and the key of a thread of the store. -/
def activeThreadPresent (s : State) : Bool :=
  match s.currentChatId with
  | .str key => (s.chats.get key).isSome
  | _ => false

/-- The event, arriving in state `s`, is one of those that the list of chats
can cause: a switch goes to the id of a thread of the store, a deletion names
a thread by a string id; the other events are not restricted. -/
def Event.admissible (s : State) : Event → Bool
  | .switchToChat _ (.str key) => (s.chats.get key).isSome
  | .switchToChat _ _ => false
  | .deleteChat _ (.str _) => true
  | .deleteChat _ _ => false
  | _ => true

/-- Every event of the sequence is admissible in the state in which it
arrives. -/
def admissibleRun (host : Host) (s : State) : List Event → Bool
  | [] => true
  | e :: rest => e.admissible s && admissibleRun host (e.apply host s) rest

/-! ## The page: requests in flight -/

/-- The script together with the requests it has issued and that have not
settled yet. -/
structure Page where
  state : State
  outstanding : List Request
  deriving DecidableEq, Repr

/-- What happens on the page: the three actions of the list of chats, an
attempt to send (a click on the send button or Enter in the input field), and
the settling of the oldest request in flight. -/
inductive PageEvent where
  | createNewChat (idClock createdClock now : Nat)
  | switchToChat (now : Nat) (chatId : ChatId)
  | deleteChat (now : Nat) (chatId : ChatId)
  | send (now : Nat) (rawInput : JsString)
  | settle (now catchClock : Nat) (outcome : Outcome)
  deriving DecidableEq, Repr

/-- Modelled from the spec: the input surface, that is the input field and the
send button of the page, whose markup is not part of the script.  While the
surface is disabled an attempt to send is not delivered to `sendMessage` and
changes nothing; while it is enabled `sendMessage` runs up to its `await`
and the request it issues, if any, is in flight. -/
def deliverSend (host : Host) (now : Nat) (rawInput : JsString) (p : Page) : Page :=
  if p.state.inputDisabled then p
  else
    match sendMessageStart host now rawInput p.state with
    | (r, none) => { state := r.state, outstanding := p.outstanding }
    | (r, some request) => { state := r.state, outstanding := p.outstanding ++ [request] }

/-- The effect of one event on the page.  A settling without a request in
flight does not occur. -/
def Page.step (host : Host) (p : Page) : PageEvent → Page
  | .createNewChat idClock createdClock now =>
    { p with state := (ChatApp.createNewChat host idClock createdClock now p.state).state }
  | .switchToChat now chatId =>
    { p with state := (ChatApp.switchToChat host now chatId p.state).state }
  | .deleteChat now chatId =>
    { p with state := (ChatApp.deleteChat host now chatId p.state).state }
  | .send now rawInput => deliverSend host now rawInput p
  | .settle now catchClock outcome =>
    match p.outstanding with
    | [] => p
    | _ :: rest =>
      { state := (sendMessageFinish host now catchClock outcome p.state).state
        outstanding := rest }

/-- The page after a sequence of events, the first of the list first. -/
def Page.run (host : Host) (p : Page) (events : List PageEvent) : Page :=
  events.foldl (Page.step host) p

/-- At most one request is in flight, and while one is, the input surface is
disabled. -/
def oneInFlight (p : Page) : Prop :=
  p.outstanding.length ≤ 1 ∧ (p.outstanding ≠ [] → p.state.inputDisabled = true)

instance (p : Page) : Decidable (oneInFlight p) := by
  unfold oneInFlight; exact inferInstance

/-! ## Example replies and traces -/

/-- A reply that asks for a confirmation and carries the three session
fields. -/
def confirmationReply : Response :=
  { type := .str (utf16 "CONFIRMATION_NEEDED")
    content := [(utf16 "message", .str (utf16 "Shall I open a ticket?"))]
    pending_action := .str (utf16 "create_ticket")
    pending_state := .obj (utf16 "[object Object]")
    original_query := .str (utf16 "reset my password") }

/-- A reply like `confirmationReply` whose action identifier is the number
`0`: the three session fields are present, and `pending_action` counts as
false in a condition. -/
def zeroActionReply : Response :=
  { confirmationReply with pending_action := .num true (utf16 "0") }

/-- An `INFO_QUERY` reply whose content has no `answer`. -/
def answerlessReply : Response :=
  { type := .str (utf16 "INFO_QUERY")
    content := []
    pending_action := .undefined
    pending_state := .undefined
    original_query := .undefined }

/-- Two chats are made, a message is sent in the second one, and the reply
asks for a confirmation: an action is pending in `chat_2`. -/
def pendingTrace : List Event :=
  [.createNewChat 1 1 1, .createNewChat 2 2 2, .sendMessage 3 (utf16 "reset my password"),
    .handleResponse 4 5 confirmationReply]

/-- As `pendingTrace`, with the action identifier `0`. -/
def zeroActionTrace : List Event :=
  [.createNewChat 1 1 1, .createNewChat 2 2 2, .sendMessage 3 (utf16 "reset my password"),
    .handleResponse 4 5 zeroActionReply]

/-- After `pendingTrace` a second message is sent and the reply has no
`answer`: `chat_2` holds a message whose content is `undefined`, and the
action is still pending. -/
def undefinedContentTrace : List Event :=
  pendingTrace ++ [.sendMessage 6 (utf16 "what is the status?"), .handleResponse 7 8 answerlessReply]

/-! ## The store under its three operations -/

theorem Chats.set_ne_nil (key : JsString) (chat : ChatThread) (c : Chats) :
    c.set key chat ≠ [] := by
  cases c with
  | nil => simp [Chats.set]
  | cons kv rest =>
    obtain ⟨k, v⟩ := kv
    by_cases h : k = key <;> simp [Chats.set, h]

theorem Chats.length_le_length_delete_succ (key : JsString) (c : Chats) :
    c.length ≤ (c.delete key).length + 1 := by
  induction c with
  | nil => simp
  | cons kv rest ih =>
    obtain ⟨k, v⟩ := kv
    by_cases h : k = key <;> simp [Chats.delete, h, ih]

theorem Chats.get_set_same (key : JsString) (chat : ChatThread) (c : Chats) :
    (c.set key chat).get key = some chat := by
  induction c with
  | nil => simp [Chats.set, Chats.get]
  | cons kv rest ih =>
    obtain ⟨k, v⟩ := kv
    by_cases h : k = key <;> simp [Chats.set, Chats.get, h, ih]

theorem Chats.get_set_other (key other : JsString) (chat : ChatThread) (c : Chats)
    (h : other ≠ key) : (c.set key chat).get other = c.get other := by
  induction c with
  | nil => simp [Chats.set, Chats.get, Ne.symm h]
  | cons kv rest ih =>
    obtain ⟨k, v⟩ := kv
    by_cases hk : k = key
    · subst hk
      simp [Chats.set, Chats.get, Ne.symm h]
    · by_cases ho : k = other
      · subst ho
        simp [Chats.set, Chats.get, hk]
      · simp [Chats.set, Chats.get, hk, ho, ih]

theorem Chats.length_set_of_get (key : JsString) (chat old : ChatThread) (c : Chats)
    (h : c.get key = some old) : (c.set key chat).length = c.length := by
  induction c with
  | nil => simp [Chats.get] at h
  | cons kv rest ih =>
    obtain ⟨k, v⟩ := kv
    by_cases hk : k = key
    · simp [Chats.set, hk]
    · simp [Chats.get, hk] at h
      simp [Chats.set, hk, ih h]

theorem Chats.length_set_of_get_none (key : JsString) (chat : ChatThread) (c : Chats)
    (h : c.get key = none) : (c.set key chat).length = c.length + 1 := by
  induction c with
  | nil => simp [Chats.set]
  | cons kv rest ih =>
    obtain ⟨k, v⟩ := kv
    by_cases hk : k = key
    · simp [Chats.get, hk] at h
    · simp [Chats.get, hk] at h
      simp [Chats.set, hk, ih h]

theorem Chats.keys_set_of_get (key : JsString) (chat old : ChatThread) (c : Chats)
    (h : c.get key = some old) : (c.set key chat).keys = c.keys := by
  induction c with
  | nil => simp [Chats.get] at h
  | cons kv rest ih =>
    obtain ⟨k, v⟩ := kv
    by_cases hk : k = key
    · simp [Chats.set, Chats.keys, hk]
    · simp [Chats.get, hk] at h
      have := ih h
      simp only [Chats.keys] at this
      simp [Chats.set, Chats.keys, hk, this]

theorem Chats.get_delete_other (key other : JsString) (c : Chats) (h : other ≠ key) :
    (c.delete key).get other = c.get other := by
  induction c with
  | nil => simp [Chats.delete]
  | cons kv rest ih =>
    obtain ⟨k, v⟩ := kv
    by_cases hk : k = key
    · subst hk
      simp [Chats.delete, Chats.get, Ne.symm h]
    · by_cases ho : k = other
      · subst ho
        simp [Chats.delete, Chats.get, hk]
      · simp [Chats.delete, Chats.get, hk, ho, ih]

theorem Chats.get_eq_none_of_not_mem (key : JsString) (c : Chats) (h : key ∉ c.keys) :
    c.get key = none := by
  induction c with
  | nil => rfl
  | cons kv rest ih =>
    obtain ⟨k, v⟩ := kv
    simp only [Chats.keys, List.map_cons, List.mem_cons, not_or] at h
    have hk : ¬ k = key := fun hk => h.1 hk.symm
    simp only [Chats.get, hk, if_false]
    exact ih h.2

/-- In a store whose keys are pairwise different, a deleted key is gone. -/
theorem Chats.get_delete_same (key : JsString) (c : Chats) (h : c.keys.Nodup) :
    (c.delete key).get key = none := by
  induction c with
  | nil => rfl
  | cons kv rest ih =>
    obtain ⟨k, v⟩ := kv
    simp only [Chats.keys, List.map_cons, List.nodup_cons] at h
    by_cases hk : k = key
    · subst hk
      simp only [Chats.delete, if_true]
      exact Chats.get_eq_none_of_not_mem k rest h.1
    · simp only [Chats.delete, hk, if_false, Chats.get]
      exact ih h.2

theorem firstKey_present (c : Chats) (h : c ≠ []) :
    ∃ key, c.firstKey = .str key ∧ (c.get key).isSome = true := by
  cases c with
  | nil => exact absurd rfl h
  | cons kv rest =>
    obtain ⟨k, v⟩ := kv
    exact ⟨k, rfl, by simp [Chats.get]⟩

/-! ## Literals -/

theorem utf16_system_ne_user : utf16 "system" ≠ utf16 "user" := by decide

theorem utf16_assistant_ne_user : utf16 "assistant" ≠ utf16 "user" := by decide

/-- The key that `null` or `undefined` denotes is not an id made by
`createNewChat`. -/
theorem ChatId.key_ne_new (c : ChatId) (t : JsString) (h : c ≠ .str (utf16 "chat_" ++ t)) :
    c.key ≠ utf16 "chat_" ++ t := by
  have hchat : utf16 "chat_" = [99, 104, 97, 116, 95] := by decide
  cases c with
  | str k => intro hk; exact h (by simpa [ChatId.key] using hk)
  | null =>
    intro hk
    have h3 : ChatId.null.key = [110, 117, 108, 108] := by decide
    rw [h3, hchat] at hk
    simp at hk
  | undefined =>
    intro hk
    have h3 : ChatId.undefined.key = [117, 110, 100, 101, 102, 105, 110, 101, 100] := by decide
    rw [h3, hchat] at hk
    simp at hk

/-! ## The state that `addMessage` leaves -/

theorem addMessage_state (host : Host) (now : Nat) (role : JsString) (content : JsVal)
    (s : State) : (addMessage host now role content s).state = pushMessage now role content s := by
  unfold addMessage
  cases h : s.chats.get s.currentChatId.key with
  | none => simp [pushMessage, h]
  | some chat =>
    simp only
    split <;> rfl

theorem pushMessage_chats_length (now : Nat) (role : JsString) (content : JsVal) (s : State) :
    (pushMessage now role content s).chats.length = s.chats.length := by
  unfold pushMessage
  cases h : s.chats.get s.currentChatId.key with
  | none => rfl
  | some chat => exact Chats.length_set_of_get _ _ chat _ h

theorem pushMessage_session (now : Nat) (role : JsString) (content : JsVal) (s : State) :
    (pushMessage now role content s).pendingAction = s.pendingAction ∧
    (pushMessage now role content s).pendingState = s.pendingState ∧
    (pushMessage now role content s).originalQuery = s.originalQuery := by
  unfold pushMessage
  cases s.chats.get s.currentChatId.key <;> simp

theorem pushMessage_session_eq (now : Nat) (role : JsString) (content : JsVal) (s : State) :
    (pushMessage now role content s).session = s.session := by
  obtain ⟨h1, h2, h3⟩ := pushMessage_session now role content s
  simp [State.session, h1, h2, h3]

theorem pushMessage_currentChatId (now : Nat) (role : JsString) (content : JsVal) (s : State) :
    (pushMessage now role content s).currentChatId = s.currentChatId := by
  unfold pushMessage
  cases s.chats.get s.currentChatId.key <;> simp

theorem pushMessage_inputDisabled (now : Nat) (role : JsString) (content : JsVal) (s : State) :
    (pushMessage now role content s).inputDisabled = s.inputDisabled := by
  unfold pushMessage
  cases s.chats.get s.currentChatId.key <;> simp

/-- On an existing active thread the thread is stored again with the message
appended; id and creation time stay. -/
theorem pushMessage_get (now : Nat) (role : JsString) (content : JsVal) (s : State)
    (chat : ChatThread) (h : s.chats.get s.currentChatId.key = some chat) :
    ∃ chat1, (pushMessage now role content s).chats.get s.currentChatId.key = some chat1 ∧
      chat1.messages = chat.messages ++ [{ role := role, content := content, timestamp := now }] ∧
      chat1.id = chat.id ∧ chat1.created = chat.created := by
  unfold pushMessage
  simp only [h]
  exact ⟨_, Chats.get_set_same _ _ _, rfl, rfl, rfl⟩

theorem pushMessage_messagesOf (now : Nat) (role : JsString) (content : JsVal) (s : State)
    (chat : ChatThread) (h : s.chats.get s.currentChatId.key = some chat) :
    messagesOf s.currentChatId.key (pushMessage now role content s) =
      chat.messages ++ [{ role := role, content := content, timestamp := now }] := by
  obtain ⟨chat1, hget, hmsg, -, -⟩ := pushMessage_get now role content s chat h
  simp [messagesOf, hget, hmsg]

/-- Without a `user` role the thread is stored with the message appended and
nothing else changed. -/
theorem pushMessage_chats_of_ne_user (now : Nat) (role : JsString) (content : JsVal)
    (s : State) (chat : ChatThread) (h : s.chats.get s.currentChatId.key = some chat)
    (hrole : role ≠ utf16 "user") :
    (pushMessage now role content s).chats =
      s.chats.set s.currentChatId.key
        { chat with
          messages := chat.messages ++ [{ role := role, content := content, timestamp := now }] } := by
  unfold pushMessage
  simp [h, hrole]

/-! ## When a call throws -/

theorem stringsOnly_append (l : List Message) (m : Message) :
    stringsOnly (l ++ [m]) = (stringsOnly l && m.content.isString) := by
  simp [stringsOnly, List.all_append]

theorem renderMessages_of_missing (host : Host) (s : State)
    (h : s.chats.get s.currentChatId.key = none) : renderMessages host s = none := by
  simp [renderMessages, h]

theorem renderMessages_of_strings (host : Host) (s : State) (chat : ChatThread)
    (h : s.chats.get s.currentChatId.key = some chat) (hs : stringsOnly chat.messages = true) :
    renderMessages host s = none := by
  have hfind : (chat.messages.find? fun m => !m.content.isString) = none := by
    rw [List.find?_eq_none]
    intro m hm
    have := (List.all_eq_true.mp hs) m hm
    simp [this]
  simp [renderMessages, h, hfind]

theorem renderMessages_of_not_strings (host : Host) (s : State) (chat : ChatThread)
    (h : s.chats.get s.currentChatId.key = some chat) (hs : stringsOnly chat.messages = false) :
    ∃ error, renderMessages host s = some error := by
  cases hfind : chat.messages.find? fun m => !m.content.isString with
  | some m =>
    exact ⟨host.typeErrorMessage m.content (utf16 "replace"), by
      simp [renderMessages, h, hfind]⟩
  | none =>
    exfalso
    rw [List.find?_eq_none] at hfind
    have hall : stringsOnly chat.messages = true := by
      apply List.all_eq_true.mpr
      intro m hm
      simpa using hfind m hm
    rw [hall] at hs
    exact Bool.noConfusion hs

theorem addMessage_of_missing (host : Host) (now : Nat) (role : JsString) (content : JsVal)
    (s : State) (h : s.chats.get s.currentChatId.key = none) :
    addMessage host now role content s = { state := s, thrown := none } := by
  simp [addMessage, h]

/-- On a thread whose messages are strings, `addMessage` with a string
returns. -/
theorem addMessage_thrown_of_strings (host : Host) (now : Nat) (role : JsString)
    (content : JsVal) (s : State) (chat : ChatThread)
    (h : s.chats.get s.currentChatId.key = some chat) (hs : stringsOnly chat.messages = true)
    (hc : content.isString = true) :
    (addMessage host now role content s).thrown = none := by
  obtain ⟨chat1, hget, hmsg, -, -⟩ := pushMessage_get now role content s chat h
  have hcur := pushMessage_currentChatId now role content s
  have hrender : renderMessages host (pushMessage now role content s) = none := by
    apply renderMessages_of_strings host _ chat1
    · rw [hcur]; exact hget
    · rw [hmsg, stringsOnly_append, hs, hc]; rfl
  unfold addMessage
  simp only [h, hc]
  simp [hrender]

/-- On a thread that holds a message whose content is not a string,
`addMessage` throws, whatever it appends. -/
theorem addMessage_thrown_of_not_strings (host : Host) (now : Nat) (role : JsString)
    (content : JsVal) (s : State) (chat : ChatThread)
    (h : s.chats.get s.currentChatId.key = some chat) (hs : stringsOnly chat.messages = false) :
    ∃ error, (addMessage host now role content s).thrown = some error := by
  obtain ⟨chat1, hget, hmsg, -, -⟩ := pushMessage_get now role content s chat h
  have hcur := pushMessage_currentChatId now role content s
  obtain ⟨error, hrender⟩ : ∃ error,
      renderMessages host (pushMessage now role content s) = some error := by
    apply renderMessages_of_not_strings host _ chat1
    · rw [hcur]; exact hget
    · rw [hmsg, stringsOnly_append, hs]; rfl
  unfold addMessage
  simp only [h]
  split
  · exact ⟨_, rfl⟩
  · exact ⟨error, hrender⟩

/-- A content that is not a string makes `addMessage` throw on an existing
thread. -/
theorem addMessage_thrown_of_not_string (host : Host) (now : Nat) (role : JsString)
    (content : JsVal) (s : State) (chat : ChatThread)
    (h : s.chats.get s.currentChatId.key = some chat) (hc : content.isString = false) :
    ∃ error, (addMessage host now role content s).thrown = some error := by
  obtain ⟨chat1, hget, hmsg, -, -⟩ := pushMessage_get now role content s chat h
  have hcur := pushMessage_currentChatId now role content s
  obtain ⟨error, hrender⟩ : ∃ error,
      renderMessages host (pushMessage now role content s) = some error := by
    apply renderMessages_of_not_strings host _ chat1
    · rw [hcur]; exact hget
    · rw [hmsg, stringsOnly_append, hc]; simp
  unfold addMessage
  simp only [h]
  split
  · exact ⟨_, rfl⟩
  · exact ⟨error, hrender⟩

theorem Result.andThen_of_returned (r : Result) (rest : State → Result) (h : r.thrown = none) :
    r.andThen rest = rest r.state := by
  simp [Result.andThen, h]

theorem Result.andThen_of_thrown (r : Result) (rest : State → Result) (error : JsString)
    (h : r.thrown = some error) : r.andThen rest = { state := r.state, thrown := some error } := by
  simp [Result.andThen, h]

/-! ## What `switchToChat` does -/

theorem switchToChat_of_same (host : Host) (now : Nat) (chatId : ChatId) (s : State)
    (h : s.currentChatId = chatId) :
    switchToChat host now chatId s = { state := s, thrown := none } := by
  simp [switchToChat, h]

theorem switchToChat_state_of_not_pending (host : Host) (now : Nat) (chatId : ChatId)
    (s : State) (h : s.currentChatId ≠ chatId) (hp : s.pendingAction.truthy = false) :
    (switchToChat host now chatId s).state = { s with currentChatId := chatId } := by
  simp [switchToChat, h, hp]

/-- A cancellation whose notice could not be shown: the notice is pushed and
nothing else is done. -/
theorem switchToChat_of_thrown (host : Host) (now : Nat) (chatId : ChatId) (s : State)
    (error : JsString) (h : s.currentChatId ≠ chatId) (hp : s.pendingAction.truthy = true)
    (ht : (addMessage host now (utf16 "system") (.str (utf16 "Pending action cancelled."))
      s).thrown = some error) :
    switchToChat host now chatId s =
      { state := pushMessage now (utf16 "system") (.str (utf16 "Pending action cancelled.")) s
        thrown := some error } := by
  unfold switchToChat addSystemMessage
  simp only [h, hp, if_false, if_true]
  rw [Result.andThen_of_thrown _ _ error ht, addMessage_state]

/-- A cancellation whose notice was shown: the session is cleared and the
switch is made. -/
theorem switchToChat_state_of_returned (host : Host) (now : Nat) (chatId : ChatId) (s : State)
    (h : s.currentChatId ≠ chatId) (hp : s.pendingAction.truthy = true)
    (ht : (addMessage host now (utf16 "system") (.str (utf16 "Pending action cancelled."))
      s).thrown = none) :
    (switchToChat host now chatId s).state =
      { pushMessage now (utf16 "system") (.str (utf16 "Pending action cancelled.")) s with
        pendingAction := .null, pendingState := .null, originalQuery := .null,
        currentChatId := chatId } := by
  unfold switchToChat addSystemMessage
  simp only [h, hp, if_false, if_true]
  rw [Result.andThen_of_returned _ _ ht, addMessage_state]

/-- The store after `switchToChat` is the store before it, with the notice
pushed on the active thread when a cancellation was begun. -/
theorem switchToChat_chats (host : Host) (now : Nat) (chatId : ChatId) (s : State) :
    (switchToChat host now chatId s).state.chats =
      if s.currentChatId ≠ chatId ∧ isPending s = true then
        (pushMessage now (utf16 "system") (.str (utf16 "Pending action cancelled.")) s).chats
      else s.chats := by
  by_cases h : s.currentChatId = chatId
  · simp [switchToChat_of_same host now chatId s h, h]
  · cases hp : s.pendingAction.truthy with
    | false => simp [switchToChat_state_of_not_pending host now chatId s h hp, isPending, hp]
    | true =>
      cases ht : (addMessage host now (utf16 "system")
          (.str (utf16 "Pending action cancelled.")) s).thrown with
      | none => simp [switchToChat_state_of_returned host now chatId s h hp ht, isPending, hp, h]
      | some error => simp [switchToChat_of_thrown host now chatId s error h hp ht, isPending, hp, h]

theorem switchToChat_chats_length (host : Host) (now : Nat) (chatId : ChatId) (s : State) :
    (switchToChat host now chatId s).state.chats.length = s.chats.length := by
  rw [switchToChat_chats]
  split
  · exact pushMessage_chats_length _ _ _ s
  · rfl

theorem switchToChat_session (host : Host) (now : Nat) (chatId : ChatId) (s : State) :
    (switchToChat host now chatId s).state.session = s.session ∨
    (switchToChat host now chatId s).state.session = (.null, .null, .null) := by
  by_cases h : s.currentChatId = chatId
  · left; simp [switchToChat_of_same host now chatId s h]
  · cases hp : s.pendingAction.truthy with
    | false =>
      left; simp [switchToChat_state_of_not_pending host now chatId s h hp, State.session]
    | true =>
      cases ht : (addMessage host now (utf16 "system")
          (.str (utf16 "Pending action cancelled.")) s).thrown with
      | none =>
        right; simp [switchToChat_state_of_returned host now chatId s h hp ht, State.session]
      | some error =>
        left
        rw [switchToChat_of_thrown host now chatId s error h hp ht]
        exact pushMessage_session_eq _ _ _ s

theorem switchToChat_inputDisabled (host : Host) (now : Nat) (chatId : ChatId) (s : State) :
    (switchToChat host now chatId s).state.inputDisabled = s.inputDisabled := by
  by_cases h : s.currentChatId = chatId
  · simp [switchToChat_of_same host now chatId s h]
  · cases hp : s.pendingAction.truthy with
    | false => simp [switchToChat_state_of_not_pending host now chatId s h hp]
    | true =>
      cases ht : (addMessage host now (utf16 "system")
          (.str (utf16 "Pending action cancelled.")) s).thrown with
      | none =>
        simp [switchToChat_state_of_returned host now chatId s h hp ht,
          pushMessage_inputDisabled]
      | some error =>
        rw [switchToChat_of_thrown host now chatId s error h hp ht]
        exact pushMessage_inputDisabled _ _ _ s

/-- After `switchToChat` the active thread is the one asked for, or, when
the notice could not be shown, the one that was active. -/
theorem switchToChat_currentChatId (host : Host) (now : Nat) (chatId : ChatId) (s : State) :
    (switchToChat host now chatId s).state.currentChatId = chatId ∨
    ((switchToChat host now chatId s).state.currentChatId = s.currentChatId ∧
      isPending s = true ∧
      ∃ error, (addMessage host now (utf16 "system")
        (.str (utf16 "Pending action cancelled.")) s).thrown = some error) := by
  by_cases h : s.currentChatId = chatId
  · left; simp [switchToChat_of_same host now chatId s h, h]
  · cases hp : s.pendingAction.truthy with
    | false => left; simp [switchToChat_state_of_not_pending host now chatId s h hp]
    | true =>
      cases ht : (addMessage host now (utf16 "system")
          (.str (utf16 "Pending action cancelled.")) s).thrown with
      | none => left; simp [switchToChat_state_of_returned host now chatId s h hp ht]
      | some error =>
        right
        rw [switchToChat_of_thrown host now chatId s error h hp ht]
        exact ⟨pushMessage_currentChatId _ _ _ s, hp, error, rfl⟩

/-! ## What `createNewChat` and `deleteChat` do -/

theorem createNewChat_chats_ne_nil (host : Host) (idClock createdClock now : Nat) (s : State) :
    (createNewChat host idClock createdClock now s).state.chats ≠ [] := by
  apply List.length_pos.mp
  unfold createNewChat
  simp only [switchToChat_chats_length]
  exact List.length_pos.mpr (Chats.set_ne_nil _ _ _)

theorem deleteChat_chats_ne_nil (host : Host) (now : Nat) (chatId : ChatId) (s : State)
    (hs : s.chats ≠ []) : (deleteChat host now chatId s).state.chats ≠ [] := by
  unfold deleteChat
  by_cases h1 : s.chats.length = 1
  · simpa [h1] using hs
  · have hpos : 0 < s.chats.length := List.length_pos.mpr hs
    have hdel := Chats.length_le_length_delete_succ chatId.key s.chats
    have hlen : 0 < (s.chats.delete chatId.key).length := by omega
    simp only [h1, if_false]
    split
    · apply List.length_pos.mp
      rw [switchToChat_chats_length]
      exact hlen
    · exact List.length_pos.mp hlen

theorem createNewChat_session (host : Host) (idClock createdClock now : Nat) (s : State) :
    (createNewChat host idClock createdClock now s).state.session = s.session ∨
    (createNewChat host idClock createdClock now s).state.session = (.null, .null, .null) := by
  unfold createNewChat
  exact switchToChat_session host now _ _

theorem deleteChat_session (host : Host) (now : Nat) (chatId : ChatId) (s : State) :
    (deleteChat host now chatId s).state.session = s.session ∨
    (deleteChat host now chatId s).state.session = (.null, .null, .null) := by
  unfold deleteChat
  by_cases h1 : s.chats.length = 1
  · simp [h1]
  · simp only [h1, if_false]
    split
    · exact switchToChat_session host now _ _
    · left; rfl

theorem createNewChat_inputDisabled (host : Host) (idClock createdClock now : Nat) (s : State) :
    (createNewChat host idClock createdClock now s).state.inputDisabled = s.inputDisabled := by
  unfold createNewChat
  simp [switchToChat_inputDisabled]

theorem deleteChat_inputDisabled (host : Host) (now : Nat) (chatId : ChatId) (s : State) :
    (deleteChat host now chatId s).state.inputDisabled = s.inputDisabled := by
  unfold deleteChat
  by_cases h1 : s.chats.length = 1
  · simp [h1]
  · simp only [h1, if_false]
    split
    · simp [switchToChat_inputDisabled]
    · rfl

/-! ## What `handleResponse` does -/

/-- The shape of `handleResponse`: nothing at all, or one `addMessage` with
role `assistant` followed, if it returns, by the three assignments, which
clear the session or copy the three fields of the reply. -/
theorem handleResponse_cases (host : Host) (now : Nat) (data : Response) (s : State) :
    handleResponse host now data s = { state := s, thrown := none } ∨
    ∃ content action state query,
      ((action, state, query) = (JsVal.null, JsVal.null, JsVal.null) ∨
        (action, state, query) =
          (data.pending_action, data.pending_state, data.original_query)) ∧
      handleResponse host now data s =
        (addMessage host now (utf16 "assistant") content s).andThen fun s1 =>
          { state := setSession action state query s1, thrown := none } := by
  unfold handleResponse
  repeat' split
  all_goals first
    | exact Or.inl rfl
    | exact Or.inr ⟨_, _, _, _, Or.inl rfl, rfl⟩
    | exact Or.inr ⟨_, _, _, _, Or.inr rfl, rfl⟩

/-- One `addMessage` followed by the three assignments: either the message is
pushed and the assignments are made, or the message is pushed and the call
throws. -/
theorem addMessage_andThen_setSession (host : Host) (now : Nat) (role : JsString)
    (content action state query : JsVal) (s : State) :
    ((addMessage host now role content s).thrown = none ∧
      ((addMessage host now role content s).andThen fun s1 =>
        { state := setSession action state query s1, thrown := none }) =
      { state := setSession action state query (pushMessage now role content s),
        thrown := none }) ∨
    ∃ error, (addMessage host now role content s).thrown = some error ∧
      ((addMessage host now role content s).andThen fun s1 =>
        { state := setSession action state query s1, thrown := none }) =
      { state := pushMessage now role content s, thrown := some error } := by
  cases ht : (addMessage host now role content s).thrown with
  | none =>
    left
    refine ⟨rfl, ?_⟩
    rw [Result.andThen_of_returned _ _ ht, addMessage_state]
  | some error =>
    right
    refine ⟨error, rfl, ?_⟩
    rw [Result.andThen_of_thrown _ _ error ht, addMessage_state]

/-- The store after `handleResponse`: as before, or with one message pushed
on the active thread. -/
theorem handleResponse_chats (host : Host) (now : Nat) (data : Response) (s : State) :
    (handleResponse host now data s).state.chats = s.chats ∨
    ∃ content, (handleResponse host now data s).state.chats =
      (pushMessage now (utf16 "assistant") content s).chats := by
  rcases handleResponse_cases host now data s with h | ⟨content, action, state, query, -, h⟩
  · left; rw [h]
  · right
    refine ⟨content, ?_⟩
    rw [h]
    rcases addMessage_andThen_setSession host now (utf16 "assistant") content action state
      query s with ⟨-, h1⟩ | ⟨error, -, h1⟩ <;> rw [h1]
    rfl

theorem handleResponse_chats_length (host : Host) (now : Nat) (data : Response) (s : State) :
    (handleResponse host now data s).state.chats.length = s.chats.length := by
  rcases handleResponse_chats host now data s with h | ⟨content, h⟩
  · rw [h]
  · rw [h]; exact pushMessage_chats_length _ _ _ s

theorem handleResponse_currentChatId (host : Host) (now : Nat) (data : Response) (s : State) :
    (handleResponse host now data s).state.currentChatId = s.currentChatId := by
  rcases handleResponse_cases host now data s with h | ⟨content, action, state, query, -, h⟩
  · rw [h]
  · rw [h]
    rcases addMessage_andThen_setSession host now (utf16 "assistant") content action state
      query s with ⟨-, h1⟩ | ⟨error, -, h1⟩ <;> rw [h1] <;>
      simp [setSession, pushMessage_currentChatId]

theorem handleResponse_inputDisabled (host : Host) (now : Nat) (data : Response) (s : State) :
    (handleResponse host now data s).state.inputDisabled = s.inputDisabled := by
  rcases handleResponse_cases host now data s with h | ⟨content, action, state, query, -, h⟩
  · rw [h]
  · rw [h]
    rcases addMessage_andThen_setSession host now (utf16 "assistant") content action state
      query s with ⟨-, h1⟩ | ⟨error, -, h1⟩ <;> rw [h1] <;>
      simp [setSession, pushMessage_inputDisabled]

/-- The session after `handleResponse`: as before, cleared, or the three
fields of the reply. -/
theorem handleResponse_session (host : Host) (now : Nat) (data : Response) (s : State) :
    (handleResponse host now data s).state.session = s.session ∨
    (handleResponse host now data s).state.session = (.null, .null, .null) ∨
    (handleResponse host now data s).state.session =
      (data.pending_action, data.pending_state, data.original_query) := by
  rcases handleResponse_cases host now data s with h | ⟨content, action, state, query, hq, h⟩
  · left; rw [h]
  · rw [h]
    rcases addMessage_andThen_setSession host now (utf16 "assistant") content action state
      query s with ⟨-, h1⟩ | ⟨error, -, h1⟩
    · right
      rw [h1]
      rcases hq with hq | hq
      · left; simpa [State.session, setSession] using hq
      · right; simpa [State.session, setSession] using hq
    · left
      rw [h1]
      exact pushMessage_session_eq _ _ _ s

/-! ## What `sendMessage` does -/

theorem setInputEnabled_session (enabled : Bool) (s : State) :
    (setInputEnabled enabled s).session = s.session := rfl

/-- Before the request `sendMessage` does nothing or pushes the message of
the user; the flag of the input apart, nothing else changes. -/
theorem sendMessageStart_state (host : Host) (now : Nat) (rawInput : JsString) (s : State) :
    (sendMessageStart host now rawInput s).1.state = s ∨
    ∃ flag, (sendMessageStart host now rawInput s).1.state =
      { pushMessage now (utf16 "user") (.str (trim rawInput)) s with inputDisabled := flag } := by
  unfold sendMessageStart
  by_cases hq : trim rawInput = []
  · left; simp [hq]
  · right
    simp only [hq, if_false]
    split
    · exact ⟨s.inputDisabled, by
        simp only [addMessage_state]
        rw [← pushMessage_inputDisabled now (utf16 "user") (.str (trim rawInput)) s]⟩
    · split
      · exact ⟨false, by simp [addMessage_state, setInputEnabled]⟩
      · exact ⟨true, by simp [addMessage_state, setInputEnabled]⟩

theorem sendMessageStart_chats (host : Host) (now : Nat) (rawInput : JsString) (s : State) :
    (sendMessageStart host now rawInput s).1.state.chats = s.chats ∨
    (sendMessageStart host now rawInput s).1.state.chats =
      (pushMessage now (utf16 "user") (.str (trim rawInput)) s).chats := by
  rcases sendMessageStart_state host now rawInput s with h | ⟨flag, h⟩
  · left; rw [h]
  · right; rw [h]

theorem sendMessageStart_chats_length (host : Host) (now : Nat) (rawInput : JsString)
    (s : State) : (sendMessageStart host now rawInput s).1.state.chats.length = s.chats.length := by
  rcases sendMessageStart_chats host now rawInput s with h | h
  · rw [h]
  · rw [h]; exact pushMessage_chats_length _ _ _ s

theorem sendMessageStart_session (host : Host) (now : Nat) (rawInput : JsString) (s : State) :
    (sendMessageStart host now rawInput s).1.state.session = s.session := by
  rcases sendMessageStart_state host now rawInput s with h | ⟨flag, h⟩
  · rw [h]
  · rw [h]; exact pushMessage_session_eq _ _ _ s

theorem sendMessageStart_currentChatId (host : Host) (now : Nat) (rawInput : JsString)
    (s : State) :
    (sendMessageStart host now rawInput s).1.state.currentChatId = s.currentChatId := by
  rcases sendMessageStart_state host now rawInput s with h | ⟨flag, h⟩
  · rw [h]
  · rw [h]; exact pushMessage_currentChatId _ _ _ s

/-- The `catch` block pushes the error message; `finally` enables the
input. -/
theorem catchAndFinally_state (host : Host) (now : Nat) (errorMessage : JsString) (s : State) :
    (catchAndFinally host now errorMessage s).state =
      setInputEnabled true
        (pushMessage now (utf16 "assistant") (.str (utf16 "Error: " ++ errorMessage)) s) := by
  simp [catchAndFinally, addMessage_state]

/-- The state after the settled call: the state after `handleResponse`, or
the state with one error message pushed, or the state after `handleResponse`
with one error message pushed; the input is enabled. -/
theorem sendMessageFinish_state (host : Host) (now catchClock : Nat) (outcome : Outcome)
    (s : State) :
    (∃ data, outcome = .replied data ∧
      (sendMessageFinish host now catchClock outcome s).state =
        setInputEnabled true (handleResponse host now data s).state) ∨
    (∃ data error, outcome = .replied data ∧
      (sendMessageFinish host now catchClock outcome s).state =
        setInputEnabled true (pushMessage catchClock (utf16 "assistant")
          (.str (utf16 "Error: " ++ error)) (handleResponse host now data s).state)) ∨
    (∃ errorMessage, outcome = .failed errorMessage ∧
      (sendMessageFinish host now catchClock outcome s).state =
        setInputEnabled true (pushMessage now (utf16 "assistant")
          (.str (utf16 "Error: " ++ errorMessage)) s)) := by
  cases outcome with
  | failed errorMessage =>
    right; right
    exact ⟨errorMessage, rfl, by simp [sendMessageFinish, catchAndFinally_state]⟩
  | replied data =>
    cases ht : (handleResponse host now data s).thrown with
    | none =>
      left
      exact ⟨data, rfl, by simp [sendMessageFinish, ht]⟩
    | some error =>
      right; left
      exact ⟨data, error, rfl, by simp [sendMessageFinish, ht, catchAndFinally_state]⟩

theorem sendMessageFinish_chats_length (host : Host) (now catchClock : Nat) (outcome : Outcome)
    (s : State) :
    (sendMessageFinish host now catchClock outcome s).state.chats.length = s.chats.length := by
  rcases sendMessageFinish_state host now catchClock outcome s with
    ⟨data, -, h⟩ | ⟨data, error, -, h⟩ | ⟨errorMessage, -, h⟩
  · rw [h]; exact handleResponse_chats_length host now data s
  · rw [h]
    show (pushMessage _ _ _ _).chats.length = _
    rw [pushMessage_chats_length]
    exact handleResponse_chats_length host now data s
  · rw [h]; exact pushMessage_chats_length _ _ _ s

theorem sendMessageFinish_currentChatId (host : Host) (now catchClock : Nat) (outcome : Outcome)
    (s : State) :
    (sendMessageFinish host now catchClock outcome s).state.currentChatId = s.currentChatId := by
  rcases sendMessageFinish_state host now catchClock outcome s with
    ⟨data, -, h⟩ | ⟨data, error, -, h⟩ | ⟨errorMessage, -, h⟩
  · rw [h]; exact handleResponse_currentChatId host now data s
  · rw [h]
    show (pushMessage _ _ _ _).currentChatId = _
    rw [pushMessage_currentChatId]
    exact handleResponse_currentChatId host now data s
  · rw [h]; exact pushMessage_currentChatId _ _ _ s

theorem sendMessageFinish_inputDisabled (host : Host) (now catchClock : Nat) (outcome : Outcome)
    (s : State) :
    (sendMessageFinish host now catchClock outcome s).state.inputDisabled = false := by
  rcases sendMessageFinish_state host now catchClock outcome s with
    ⟨data, -, h⟩ | ⟨data, error, -, h⟩ | ⟨errorMessage, -, h⟩ <;> rw [h] <;> rfl

/-- The session after the settled call: as before, cleared, or the three
fields of the reply. -/
theorem sendMessageFinish_session (host : Host) (now catchClock : Nat) (outcome : Outcome)
    (s : State) :
    (sendMessageFinish host now catchClock outcome s).state.session = s.session ∨
    (sendMessageFinish host now catchClock outcome s).state.session = (.null, .null, .null) ∨
    ∃ data, outcome = .replied data ∧
      (sendMessageFinish host now catchClock outcome s).state.session =
        (data.pending_action, data.pending_state, data.original_query) := by
  rcases sendMessageFinish_state host now catchClock outcome s with
    ⟨data, hd, h⟩ | ⟨data, error, hd, h⟩ | ⟨errorMessage, -, h⟩
  · rw [h, setInputEnabled_session]
    rcases handleResponse_session host now data s with h1 | h1 | h1
    · exact Or.inl h1
    · exact Or.inr (Or.inl h1)
    · exact Or.inr (Or.inr ⟨data, hd, h1⟩)
  · rw [h, setInputEnabled_session, pushMessage_session_eq]
    rcases handleResponse_session host now data s with h1 | h1 | h1
    · exact Or.inl h1
    · exact Or.inr (Or.inl h1)
    · exact Or.inr (Or.inr ⟨data, hd, h1⟩)
  · left
    rw [h, setInputEnabled_session, pushMessage_session_eq]

/-! ## The store is never empty -/

/-- Every event keeps a store that holds a thread from becoming empty. -/
theorem Event.apply_chats_ne_nil (host : Host) (s : State) (e : Event)
    (hs : s.chats ≠ []) : (e.apply host s).chats ≠ [] := by
  have hpos : 0 < s.chats.length := List.length_pos.mpr hs
  cases e with
  | createNewChat idClock createdClock now => exact createNewChat_chats_ne_nil host _ _ _ s
  | deleteChat now chatId => exact deleteChat_chats_ne_nil host now chatId s hs
  | switchToChat now chatId =>
    apply List.length_pos.mp
    simp only [Event.apply, switchToChat_chats_length]; exact hpos
  | sendMessage now rawInput =>
    apply List.length_pos.mp
    simp only [Event.apply, sendMessageStart_chats_length]; exact hpos
  | handleResponse now catchClock data =>
    apply List.length_pos.mp
    simp only [Event.apply, sendMessageFinish_chats_length]; exact hpos
  | requestFailed now errorMessage =>
    apply List.length_pos.mp
    simp only [Event.apply, sendMessageFinish_chats_length]; exact hpos

/-- C1, non-empty invariant: from a store that holds at least one thread, no
sequence of `createNewChat` and `deleteChat` calls, whatever the ids and the
clock values and whether the calls return or throw, leaves `chats` empty. -/
theorem chats_nonempty_after_create_delete (host : Host) (s : State)
    (events : List Event) (hs : s.chats ≠ [])
    (hev : ∀ e ∈ events, e.isCreateOrDelete = true) :
    (run host s events).chats ≠ [] := by
  induction events generalizing s with
  | nil => simpa [run] using hs
  | cons e rest ih =>
    have hrest : ∀ e' ∈ rest, e'.isCreateOrDelete = true :=
      fun e' he' => hev e' (List.mem_cons_of_mem _ he')
    simpa [run] using ih (e.apply host s) (Event.apply_chats_ne_nil host s e hs) hrest

/-- The invariant of C1 on a store of one thread: two deletions of that thread,
a creation, and a deletion of the thread just created. -/
theorem chats_nonempty_after_create_delete_witness :
    (onLoad asciiHost none 1 1 1).state.chats ≠ [] ∧
    (∀ e ∈ [Event.deleteChat 2 (.str (utf16 "chat_1")), .deleteChat 3 (.str (utf16 "chat_1")),
        .createNewChat 4 4 4, .deleteChat 5 (.str (utf16 "chat_4"))],
      e.isCreateOrDelete = true) ∧
    (run asciiHost (onLoad asciiHost none 1 1 1).state
      [.deleteChat 2 (.str (utf16 "chat_1")), .deleteChat 3 (.str (utf16 "chat_1")),
        .createNewChat 4 4 4, .deleteChat 5 (.str (utf16 "chat_4"))]).chats ≠ [] :=
  ⟨by decide, by decide,
    chats_nonempty_after_create_delete asciiHost (onLoad asciiHost none 1 1 1).state _
      (by decide) (by decide)⟩

/-! ## The session triple -/

theorem sessionAtomic_of_session_eq {s t : State} (h : t.session = s.session)
    (hs : sessionAtomic s) : sessionAtomic t := by
  simp only [State.session, Prod.mk.injEq] at h
  obtain ⟨h1, h2, h3⟩ := h
  simpa [sessionAtomic, sessionCleared, sessionPopulated, h1, h2, h3] using hs

theorem sessionAtomic_of_session_null {t : State} (h : t.session = (.null, .null, .null)) :
    sessionAtomic t := by
  simp only [State.session, Prod.mk.injEq] at h
  obtain ⟨h1, h2, h3⟩ := h
  left
  simp [sessionCleared, JsVal.absent, h1, h2, h3]

/-- An event whose reply, if it has one, carries the session fields together
keeps the triple all absent or all present. -/
theorem Event.apply_sessionAtomic (host : Host) (s : State) (e : Event)
    (hs : sessionAtomic s) (he : e.atomicReply) : sessionAtomic (e.apply host s) := by
  cases e with
  | createNewChat idClock createdClock now =>
    rcases createNewChat_session host idClock createdClock now s with h | h
    · exact sessionAtomic_of_session_eq h hs
    · exact sessionAtomic_of_session_null h
  | switchToChat now chatId =>
    rcases switchToChat_session host now chatId s with h | h
    · exact sessionAtomic_of_session_eq h hs
    · exact sessionAtomic_of_session_null h
  | deleteChat now chatId =>
    rcases deleteChat_session host now chatId s with h | h
    · exact sessionAtomic_of_session_eq h hs
    · exact sessionAtomic_of_session_null h
  | sendMessage now rawInput =>
    exact sessionAtomic_of_session_eq (sendMessageStart_session host now rawInput s) hs
  | requestFailed now errorMessage =>
    rcases sendMessageFinish_session host now now (.failed errorMessage) s with
      h | h | ⟨data, hd, -⟩
    · exact sessionAtomic_of_session_eq h hs
    · exact sessionAtomic_of_session_null h
    · exact Outcome.noConfusion hd
  | handleResponse now catchClock data =>
    rcases sendMessageFinish_session host now catchClock (.replied data) s with
      h | h | ⟨data1, hd, h⟩
    · exact sessionAtomic_of_session_eq h hs
    · exact sessionAtomic_of_session_null h
    · cases hd
      have h2 : (Event.apply host s (.handleResponse now catchClock data)).session =
          (data.pending_action, data.pending_state, data.original_query) := h
      simp only [State.session, Prod.mk.injEq] at h2
      obtain ⟨h1, h2, h3⟩ := h2
      simpa [sessionAtomic, sessionCleared, sessionPopulated, h1, h2, h3,
        Event.atomicReply, Response.sessionAtomic] using he

/-- C2 as stated fails: from the initial state, a chat is created, a message is
sent, and a `CONFIRMATION_NEEDED` reply that carries `pending_action` alone
leaves `pendingAction` present beside an absent `pendingState` and an absent
`originalQuery`. -/
theorem session_partial_after_confirmation :
    sessionCleared initialState ∧
    ¬ sessionAtomic (run asciiHost initialState
      [.createNewChat 1 1 1, .sendMessage 2 (utf16 "reset my password"),
        .handleResponse 3 4
          { type := .str (utf16 "CONFIRMATION_NEEDED")
            content := [(utf16 "message", .str (utf16 "Shall I open a ticket?"))]
            pending_action := .str (utf16 "create_ticket")
            pending_state := .undefined
            original_query := .undefined }]) := by
  decide

/-- C2, amended: from a state whose session triple is all absent, every
sequence of `createNewChat`, `switchToChat`, `deleteChat`, `sendMessage`,
failed calls and `handleResponse` on replies that each carry `pending_action`,
`pending_state` and `original_query` all three or none, ends in a state whose
triple is all absent or all present, whether the calls return or throw. -/
theorem session_atomic_of_atomic_replies (host : Host) (s : State)
    (events : List Event) (hs : sessionCleared s) (hev : ∀ e ∈ events, e.atomicReply) :
    sessionAtomic (run host s events) := by
  have hs0 : sessionAtomic s := Or.inl hs
  clear hs
  induction events generalizing s with
  | nil => simpa [run] using hs0
  | cons e rest ih =>
    have hrest : ∀ e' ∈ rest, e'.atomicReply :=
      fun e' he' => hev e' (List.mem_cons_of_mem _ he')
    have he : e.atomicReply := hev e (List.mem_cons_self _ _)
    simpa [run] using
      ih (e.apply host s) hrest (Event.apply_sessionAtomic host s e hs0 he)

/-- The amended C2 on a turn that populates the session, a switch that cancels
it, and a terminal reply. -/
theorem session_atomic_of_atomic_replies_witness :
    sessionCleared initialState ∧
    (∀ e ∈ [Event.createNewChat 1 1 1, .sendMessage 2 (utf16 "reset my password"),
        .handleResponse 3 4
          { type := .str (utf16 "CONFIRMATION_NEEDED")
            content := [(utf16 "message", .str (utf16 "Shall I open a ticket?"))]
            pending_action := .str (utf16 "create_ticket")
            pending_state := .obj (utf16 "[object Object]")
            original_query := .str (utf16 "reset my password") },
        .createNewChat 5 5 5,
        .handleResponse 6 7
          { type := .str (utf16 "INFO_QUERY")
            content := [(utf16 "answer", .str (utf16 "Done."))]
            pending_action := .undefined
            pending_state := .undefined
            original_query := .undefined }], e.atomicReply) ∧
    sessionAtomic (run asciiHost initialState
      [.createNewChat 1 1 1, .sendMessage 2 (utf16 "reset my password"),
        .handleResponse 3 4
          { type := .str (utf16 "CONFIRMATION_NEEDED")
            content := [(utf16 "message", .str (utf16 "Shall I open a ticket?"))]
            pending_action := .str (utf16 "create_ticket")
            pending_state := .obj (utf16 "[object Object]")
            original_query := .str (utf16 "reset my password") },
        .createNewChat 5 5 5,
        .handleResponse 6 7
          { type := .str (utf16 "INFO_QUERY")
            content := [(utf16 "answer", .str (utf16 "Done."))]
            pending_action := .undefined
            pending_state := .undefined
            original_query := .undefined }]) :=
  ⟨by decide, by decide,
    session_atomic_of_atomic_replies asciiHost initialState _ (by decide) (by decide)⟩

/-! ## Cancellation on a switch -/

/-- C3 as stated fails, in two ways.  After `zeroActionTrace` the session is
populated, with the action identifier `0`; `chat_2` exists and is active; the
switch to `chat_1` appends nothing to `chat_2` and leaves the session
populated, because `switchToChat` tests `if (pendingAction)`.  After
`undefinedContentTrace` the session is populated with a true `pendingAction`
and `chat_2`, which is active, holds a message whose content is `undefined`;
the switch to `chat_1` appends the notice and then throws in `renderMessages`:
the session stays populated and `chat_2` stays active. -/
theorem switchToChat_keeps_pending :
    sessionPopulated (run asciiHost initialState zeroActionTrace) ∧
    (run asciiHost initialState zeroActionTrace).currentChatId = .str (utf16 "chat_2") ∧
    ((run asciiHost initialState zeroActionTrace).chats.get (utf16 "chat_2")).isSome = true ∧
    messagesOf (utf16 "chat_2") (switchToChat asciiHost 9 (.str (utf16 "chat_1"))
        (run asciiHost initialState zeroActionTrace)).state =
      messagesOf (utf16 "chat_2") (run asciiHost initialState zeroActionTrace) ∧
    sessionPopulated (switchToChat asciiHost 9 (.str (utf16 "chat_1"))
      (run asciiHost initialState zeroActionTrace)).state ∧
    sessionPopulated (run asciiHost initialState undefinedContentTrace) ∧
    (run asciiHost initialState undefinedContentTrace).pendingAction.truthy = true ∧
    (run asciiHost initialState undefinedContentTrace).currentChatId = .str (utf16 "chat_2") ∧
    ((run asciiHost initialState undefinedContentTrace).chats.get (utf16 "chat_2")).isSome
      = true ∧
    (switchToChat asciiHost 9 (.str (utf16 "chat_1"))
      (run asciiHost initialState undefinedContentTrace)).thrown =
        some (utf16 "replace is not a function") ∧
    messagesOf (utf16 "chat_2") (switchToChat asciiHost 9 (.str (utf16 "chat_1"))
        (run asciiHost initialState undefinedContentTrace)).state =
      messagesOf (utf16 "chat_2") (run asciiHost initialState undefinedContentTrace) ++
        [cancellationNotice 9] ∧
    sessionPopulated (switchToChat asciiHost 9 (.str (utf16 "chat_1"))
      (run asciiHost initialState undefinedContentTrace)).state ∧
    (switchToChat asciiHost 9 (.str (utf16 "chat_1"))
      (run asciiHost initialState undefinedContentTrace)).state.currentChatId =
        .str (utf16 "chat_2") := by
  decide

/-- C3, amended: when thread A exists and is active, every message of A has a
string as content, B is another id and `pendingAction` counts as true,
`switchToChat(B)` appends to A exactly the `system` message `Pending action
cancelled.` after the messages A had, leaves the three session fields `null`,
and makes B the active thread. -/
theorem switchToChat_cancels_pending (host : Host) (now : Nat) (s : State) (a b : ChatId)
    (chatA : ChatThread) (hactive : s.currentChatId = a)
    (hA : s.chats.get a.key = some chatA) (hstrings : stringsOnly chatA.messages = true)
    (hb : b ≠ a) (hp : s.pendingAction.truthy = true) :
    messagesOf a.key (switchToChat host now b s).state =
      chatA.messages ++
        [{ role := utf16 "system", content := .str (utf16 "Pending action cancelled."),
           timestamp := now }] ∧
    (switchToChat host now b s).state.session = (.null, .null, .null) ∧
    sessionCleared (switchToChat host now b s).state ∧
    (switchToChat host now b s).state.currentChatId = b := by
  subst hactive
  have hne : s.currentChatId ≠ b := fun h => hb h.symm
  have ht := addMessage_thrown_of_strings host now (utf16 "system")
    (.str (utf16 "Pending action cancelled.")) s chatA hA hstrings rfl
  have hstate := switchToChat_state_of_returned host now b s hne hp ht
  have hmsg := pushMessage_messagesOf now (utf16 "system")
    (.str (utf16 "Pending action cancelled.")) s chatA hA
  rw [hstate]
  refine ⟨?_, ?_, ?_, ?_⟩
  · simpa [messagesOf] using hmsg
  · simp [State.session]
  · simp [sessionCleared, JsVal.absent]
  · rfl

/-- The amended C3 on the thread that holds the turn which made the action
pending. -/
theorem switchToChat_cancels_pending_witness :
    (run asciiHost initialState pendingTrace).currentChatId = .str (utf16 "chat_2") ∧
    (run asciiHost initialState pendingTrace).pendingAction.truthy = true ∧
    messagesOf (utf16 "chat_2") (switchToChat asciiHost 9 (.str (utf16 "chat_1"))
        (run asciiHost initialState pendingTrace)).state =
      [{ role := utf16 "user", content := .str (utf16 "reset my password"), timestamp := 3 },
        { role := utf16 "assistant", content := .str (utf16 "Shall I open a ticket?"),
          timestamp := 4 },
        { role := utf16 "system", content := .str (utf16 "Pending action cancelled."),
          timestamp := 9 }] ∧
    sessionCleared (switchToChat asciiHost 9 (.str (utf16 "chat_1"))
      (run asciiHost initialState pendingTrace)).state ∧
    (switchToChat asciiHost 9 (.str (utf16 "chat_1"))
      (run asciiHost initialState pendingTrace)).state.currentChatId = .str (utf16 "chat_1") :=
  have h := switchToChat_cancels_pending asciiHost 9 (run asciiHost initialState pendingTrace)
    (.str (utf16 "chat_2")) (.str (utf16 "chat_1"))
    { id := utf16 "chat_2", title := utf16 "reset my password",
      messages :=
        [{ role := utf16 "user", content := .str (utf16 "reset my password"), timestamp := 3 },
          { role := utf16 "assistant", content := .str (utf16 "Shall I open a ticket?"),
            timestamp := 4 }],
      created := 2 }
    (by decide) (by decide) (by decide) (by decide) (by decide)
  ⟨by decide, by decide, h.1, h.2.2.1, h.2.2.2⟩

/-! ## Ticket rendering -/

theorem foldl_append_eq (f : JsString × JsVal → JsString) (ticket : List (JsString × JsVal))
    (acc : JsString) :
    ticket.foldl (fun msg kv => msg ++ f kv) acc =
      acc ++ (ticket.map f).foldr (fun p rest => p ++ rest) [] := by
  induction ticket generalizing acc with
  | nil => simp
  | cons kv rest ih => simp [ih, List.append_assoc]

theorem ticketMessage_eq (host : Host) (header : JsString) (ticket : List (JsString × JsVal)) :
    ticketMessage host header ticket =
      header ++
        ((objectEntries ticket).map fun kv =>
          utf16 "**" ++ host.toUpperCase (kv.1.map fun u => if u = 95 then 32 else u)
            ++ utf16 ":** " ++ kv.2.toStr ++ utf16 "\n\n").foldr
          (fun p rest => p ++ rest) [] ++
        utf16 "Do you want to modify the ticket?" := by
  unfold ticketMessage replaceUnderscores
  rw [foldl_append_eq]

theorem setSession_messagesOf (key : JsString) (action state query : JsVal) (s : State) :
    messagesOf key (setSession action state query s) = messagesOf key s := rfl

/-- Without a field name that is an array index, `Object.entries` lists the
fields in the order of the payload. -/
theorem objectEntries_of_no_index (properties : List (JsString × JsVal))
    (h : ∀ kv ∈ properties, arrayIndex kv.1 = none) : objectEntries properties = properties := by
  have h1 : (properties.filter fun kv => (arrayIndex kv.1).isSome) = [] := by
    rw [List.filter_eq_nil_iff]
    intro kv hkv
    simp [h kv hkv]
  have h2 : (properties.filter fun kv => (arrayIndex kv.1).isNone) = properties := by
    rw [List.filter_eq_self]
    intro kv hkv
    simp [h kv hkv]
  unfold objectEntries
  rw [h1, h2]
  rfl

/-- A reply handled on a thread whose messages are strings, with a string to
show: the message is appended, the three assignments are made, and the call
returns. -/
theorem addMessage_andThen_of_strings (host : Host) (now : Nat) (content : JsString)
    (action state query : JsVal) (s : State) (chat : ChatThread)
    (h : s.chats.get s.currentChatId.key = some chat) (hs : stringsOnly chat.messages = true) :
    ((addMessage host now (utf16 "assistant") (.str content) s).andThen fun s1 =>
        { state := setSession action state query s1, thrown := none }) =
      { state := setSession action state query
          (pushMessage now (utf16 "assistant") (.str content) s)
        thrown := none } := by
  have ht := addMessage_thrown_of_strings host now (utf16 "assistant") (.str content) s chat h hs
    rfl
  rw [Result.andThen_of_returned _ _ ht, addMessage_state]

/-- C4 as stated fails, in two ways.  A ticket whose payload lists `priority`
and then a field named `1` is rendered with the field `1` first, because
`Object.entries` puts the names that are array indices before the others.
And on a thread that holds a message whose content is `undefined` the ticket is
appended, `renderMessages` throws, and the session is not set from the reply:
it keeps the values it had. -/
theorem ticket_rendering_reorders :
    messagesOf (utf16 "chat_1") (handleResponse asciiHost 3
        { type := .str (utf16 "TICKET_GENERATED")
          content := [(utf16 "priority", .str (utf16 "high")), (utf16 "1", .str (utf16 "jdoe"))]
          pending_action := .str (utf16 "modify_ticket")
          pending_state := .obj (utf16 "[object Object]")
          original_query := .str (utf16 "printer is broken") }
        (run asciiHost initialState
          [.createNewChat 1 1 1, .sendMessage 2 (utf16 "printer is broken")])).state =
      [{ role := utf16 "user", content := .str (utf16 "printer is broken"), timestamp := 2 },
        { role := utf16 "assistant"
          content := .str (utf16 ("**Generated Ticket:**\n\n**1:** jdoe\n\n**PRIORITY:** high\n\n"
            ++ "Do you want to modify the ticket?"))
          timestamp := 3 }] ∧
    ((run asciiHost initialState undefinedContentTrace).chats.get
      (run asciiHost initialState undefinedContentTrace).currentChatId.key).isSome = true ∧
    (handleResponse asciiHost 9
        { type := .str (utf16 "TICKET_GENERATED")
          content := [(utf16 "priority", .str (utf16 "high"))]
          pending_action := .str (utf16 "modify_ticket")
          pending_state := .obj (utf16 "[object Object]")
          original_query := .str (utf16 "printer is broken") }
        (run asciiHost initialState undefinedContentTrace)).thrown =
      some (utf16 "replace is not a function") ∧
    (handleResponse asciiHost 9
        { type := .str (utf16 "TICKET_GENERATED")
          content := [(utf16 "priority", .str (utf16 "high"))]
          pending_action := .str (utf16 "modify_ticket")
          pending_state := .obj (utf16 "[object Object]")
          original_query := .str (utf16 "printer is broken") }
        (run asciiHost initialState undefinedContentTrace)).state.session =
      (.str (utf16 "create_ticket"), .obj (utf16 "[object Object]"),
        .str (utf16 "reset my password")) := by
  decide

/-- C4, amended: on an existing active thread whose messages all have a string
as content, `handleResponse` on a `TICKET_GENERATED` (resp. `TICKET_UPDATED`)
reply appends one assistant message whose content is the header `**Generated
Ticket:**` (resp. `**Updated Ticket:**`) and a blank line, then for each field
in the order of `Object.entries` the paragraph `**LABEL:** value` with LABEL
the field name in which every underscore (code unit 95) is replaced by a space
(code unit 32), upper-cased, then the closing question; the session triple
becomes the three pending fields of the reply, and the call returns.  The order
of `Object.entries` is the order of the payload when no field name is an array
index.  The ticket with `priority: high` and `assignee: jdoe` renders PRIORITY
before ASSIGNEE. -/
theorem ticket_rendering (host : Host) (now : Nat) (data : Response)
    (s : State) (chat : ChatThread) (h : s.chats.get s.currentChatId.key = some chat)
    (hstrings : stringsOnly chat.messages = true) :
    (data.type = .str (utf16 "TICKET_GENERATED") →
      messagesOf s.currentChatId.key (handleResponse host now data s).state =
        chat.messages ++
          [{ role := utf16 "assistant"
             content := .str (utf16 "**Generated Ticket:**\n\n" ++
              ((objectEntries data.content).map fun kv =>
                utf16 "**" ++ host.toUpperCase (kv.1.map fun u => if u = 95 then 32 else u)
                  ++ utf16 ":** " ++ kv.2.toStr ++ utf16 "\n\n").foldr
                (fun p rest => p ++ rest) [] ++
              utf16 "Do you want to modify the ticket?")
             timestamp := now }] ∧
      (handleResponse host now data s).state.session =
        (data.pending_action, data.pending_state, data.original_query) ∧
      (handleResponse host now data s).thrown = none) ∧
    (data.type = .str (utf16 "TICKET_UPDATED") →
      messagesOf s.currentChatId.key (handleResponse host now data s).state =
        chat.messages ++
          [{ role := utf16 "assistant"
             content := .str (utf16 "**Updated Ticket:**\n\n" ++
              ((objectEntries data.content).map fun kv =>
                utf16 "**" ++ host.toUpperCase (kv.1.map fun u => if u = 95 then 32 else u)
                  ++ utf16 ":** " ++ kv.2.toStr ++ utf16 "\n\n").foldr
                (fun p rest => p ++ rest) [] ++
              utf16 "Do you want to modify the ticket?")
             timestamp := now }] ∧
      (handleResponse host now data s).state.session =
        (data.pending_action, data.pending_state, data.original_query) ∧
      (handleResponse host now data s).thrown = none) ∧
    ((∀ kv ∈ data.content, arrayIndex kv.1 = none) → objectEntries data.content = data.content) ∧
    ticketMessage asciiHost (utf16 "**Generated Ticket:**\n\n")
        [(utf16 "priority", .str (utf16 "high")), (utf16 "assignee", .str (utf16 "jdoe"))] =
      utf16 ("**Generated Ticket:**\n\n**PRIORITY:** high\n\n**ASSIGNEE:** jdoe\n\n" ++
        "Do you want to modify the ticket?") := by
  refine ⟨?_, ?_, objectEntries_of_no_index data.content, by decide⟩
  · intro ht
    have hm := pushMessage_messagesOf now (utf16 "assistant")
      (.str (ticketMessage host (utf16 "**Generated Ticket:**\n\n") data.content)) s chat h
    have hr := addMessage_andThen_of_strings host now
      (ticketMessage host (utf16 "**Generated Ticket:**\n\n") data.content)
      data.pending_action data.pending_state data.original_query s chat h hstrings
    have hcall : handleResponse host now data s =
        { state := setSession data.pending_action data.pending_state data.original_query
            (pushMessage now (utf16 "assistant")
              (.str (ticketMessage host (utf16 "**Generated Ticket:**\n\n") data.content)) s)
          thrown := none } := by
      rw [← hr]
      have hne : utf16 "TICKET_GENERATED" ≠ utf16 "INFO_QUERY" := by decide
      have hne2 : utf16 "TICKET_GENERATED" ≠ utf16 "CONFIRMATION_NEEDED" := by decide
      simp [handleResponse, ht, hne, hne2]
    rw [hcall, ticketMessage_eq] at *
    exact ⟨by rw [setSession_messagesOf]; exact hm, rfl, rfl⟩
  · intro ht
    have hm := pushMessage_messagesOf now (utf16 "assistant")
      (.str (ticketMessage host (utf16 "**Updated Ticket:**\n\n") data.content)) s chat h
    have hr := addMessage_andThen_of_strings host now
      (ticketMessage host (utf16 "**Updated Ticket:**\n\n") data.content)
      data.pending_action data.pending_state data.original_query s chat h hstrings
    have hcall : handleResponse host now data s =
        { state := setSession data.pending_action data.pending_state data.original_query
            (pushMessage now (utf16 "assistant")
              (.str (ticketMessage host (utf16 "**Updated Ticket:**\n\n") data.content)) s)
          thrown := none } := by
      rw [← hr]
      have hne : utf16 "TICKET_UPDATED" ≠ utf16 "INFO_QUERY" := by decide
      have hne2 : utf16 "TICKET_UPDATED" ≠ utf16 "CONFIRMATION_NEEDED" := by decide
      have hne3 : utf16 "TICKET_UPDATED" ≠ utf16 "TICKET_GENERATED" := by decide
      simp [handleResponse, ht, hne, hne2, hne3]
    rw [hcall, ticketMessage_eq] at *
    exact ⟨by rw [setSession_messagesOf]; exact hm, rfl, rfl⟩

/-- The amended C4 on a ticket with the fields `priority` and `assigned_to`,
in a fresh chat that holds the request of the user: the label of the second
field is `ASSIGNED TO`. -/
theorem ticket_rendering_witness :
    messagesOf (utf16 "chat_1") (handleResponse asciiHost 3
        { type := .str (utf16 "TICKET_GENERATED")
          content :=
            [(utf16 "priority", .str (utf16 "high")), (utf16 "assigned_to", .str (utf16 "jdoe"))]
          pending_action := .str (utf16 "modify_ticket")
          pending_state := .obj (utf16 "[object Object]")
          original_query := .str (utf16 "printer is broken") }
        (run asciiHost initialState
          [.createNewChat 1 1 1, .sendMessage 2 (utf16 "printer is broken")])).state =
      [{ role := utf16 "user", content := .str (utf16 "printer is broken"), timestamp := 2 },
        { role := utf16 "assistant"
          content := .str (utf16
            ("**Generated Ticket:**\n\n**PRIORITY:** high\n\n**ASSIGNED TO:** jdoe\n\n"
              ++ "Do you want to modify the ticket?"))
          timestamp := 3 }] ∧
    (handleResponse asciiHost 3
        { type := .str (utf16 "TICKET_GENERATED")
          content :=
            [(utf16 "priority", .str (utf16 "high")), (utf16 "assigned_to", .str (utf16 "jdoe"))]
          pending_action := .str (utf16 "modify_ticket")
          pending_state := .obj (utf16 "[object Object]")
          original_query := .str (utf16 "printer is broken") }
        (run asciiHost initialState
          [.createNewChat 1 1 1, .sendMessage 2 (utf16 "printer is broken")])).state.session =
      (.str (utf16 "modify_ticket"), .obj (utf16 "[object Object]"),
        .str (utf16 "printer is broken")) :=
  have h := (ticket_rendering asciiHost 3
      { type := .str (utf16 "TICKET_GENERATED")
        content :=
          [(utf16 "priority", .str (utf16 "high")), (utf16 "assigned_to", .str (utf16 "jdoe"))]
        pending_action := .str (utf16 "modify_ticket")
        pending_state := .obj (utf16 "[object Object]")
        original_query := .str (utf16 "printer is broken") }
      (run asciiHost initialState
        [.createNewChat 1 1 1, .sendMessage 2 (utf16 "printer is broken")])
      { id := utf16 "chat_1", title := utf16 "printer is broken",
        messages :=
          [{ role := utf16 "user", content := .str (utf16 "printer is broken"), timestamp := 2 }],
        created := 1 }
      (by decide) (by decide)).1 rfl
  ⟨h.1.trans (by decide), h.2.1⟩

/-! ## The title -/

theorem filter_user_eq_nil (messages : List Message)
    (h : ∀ m ∈ messages, m.role ≠ utf16 "user") :
    (messages.filter fun m => m.role = utf16 "user") = [] := by
  rw [List.filter_eq_nil_iff]
  intro m hm
  simp only [decide_eq_true_eq]
  exact h m hm

theorem filter_user_length_pos (messages : List Message)
    (h : ∃ m ∈ messages, m.role = utf16 "user") :
    0 < (messages.filter fun m => m.role = utf16 "user").length := by
  obtain ⟨m, hm, hr⟩ := h
  apply List.length_pos_of_mem (a := m)
  simp [List.mem_filter, hm, hr]

/-- C5, title derivation: on an existing active thread without a `user`
message, `addMessage('user', content)` with a string `content` sets the title
to the first 30 code units of `content` followed by `...` when the length of
`content`, counted in code units as by `content.length`, is more than 30, and
to `content` itself otherwise; a thread of the store that holds a `user`
message keeps its title under `addMessage` with any role and content. -/
theorem title_derivation (host : Host) (now : Nat) (s : State) :
    (∀ (chat : ChatThread) (content : JsString),
      s.chats.get s.currentChatId.key = some chat →
      (∀ m ∈ chat.messages, m.role ≠ utf16 "user") →
      titleOf s.currentChatId.key (addMessage host now (utf16 "user") (.str content) s).state =
        some (if content.length > 30 then content.take 30 ++ utf16 "..." else content)) ∧
    (∀ (key : JsString) (chat : ChatThread) (role : JsString) (content : JsVal),
      s.chats.get key = some chat →
      (∃ m ∈ chat.messages, m.role = utf16 "user") →
      titleOf key (addMessage host now role content s).state = some chat.title) := by
  constructor
  · intro chat content h hno
    have hf := filter_user_eq_nil chat.messages hno
    rw [addMessage_state]
    unfold pushMessage titleOf
    simp only [h, Chats.get_set_same, Option.map_some']
    by_cases hlen : content.length > 30
    · simp [List.filter_append, hf, List.filter, hlen]
    · have hsub : content.take 30 = content := List.take_of_length_le (by omega)
      simp [List.filter_append, hf, List.filter, hlen, hsub]
  · intro key chat role content h hex
    have hpos := filter_user_length_pos chat.messages hex
    rw [addMessage_state]
    by_cases hkey : key = s.currentChatId.key
    · subst hkey
      unfold pushMessage titleOf
      simp only [h, Chats.get_set_same, Option.map_some']
      by_cases hr : role = utf16 "user"
      · subst hr
        have : ¬ (List.filter (fun m => decide (m.role = utf16 "user")) chat.messages).length + 1
            = 1 := by omega
        simp [List.filter_append, List.filter, this]
      · simp [hr]
    · unfold pushMessage titleOf
      cases hcur : s.chats.get s.currentChatId.key with
      | none => simp [h]
      | some active => simp [Chats.get_set_other _ _ _ _ hkey, h]

/-- C5 on a first message of 35 code units, on a first message of one emoji
(two code units) and 29 letters, which has length 31, and on a second
message. -/
theorem title_derivation_witness :
    titleOf (utf16 "chat_1")
      (addMessage asciiHost 2 (utf16 "user") (.str (utf16 "my laptop does not start any more!!"))
        (createNewChat asciiHost 1 1 1 initialState).state).state =
      some (utf16 "my laptop does not start any m...") ∧
    titleOf (utf16 "chat_1")
      (addMessage asciiHost 2 (utf16 "user") (.str (utf16 "😀aaaaaaaaaaaaaaaaaaaaaaaaaaaaa"))
        (createNewChat asciiHost 1 1 1 initialState).state).state =
      some (utf16 "😀aaaaaaaaaaaaaaaaaaaaaaaaaaaa...") ∧
    titleOf (utf16 "chat_1")
      (addMessage asciiHost 3 (utf16 "user") (.str (utf16 "it is a work laptop"))
        (addMessage asciiHost 2 (utf16 "user")
          (.str (utf16 "my laptop does not start any more!!"))
          (createNewChat asciiHost 1 1 1 initialState).state).state).state =
      some (utf16 "my laptop does not start any m...") :=
  ⟨((title_derivation asciiHost 2 (createNewChat asciiHost 1 1 1 initialState).state).1
      { id := utf16 "chat_1", title := utf16 "New Chat", messages := [], created := 1 }
      (utf16 "my laptop does not start any more!!") (by decide) (by decide)).trans (by decide),
    ((title_derivation asciiHost 2 (createNewChat asciiHost 1 1 1 initialState).state).1
      { id := utf16 "chat_1", title := utf16 "New Chat", messages := [], created := 1 }
      (utf16 "😀aaaaaaaaaaaaaaaaaaaaaaaaaaaaa") (by decide) (by decide)).trans (by decide),
    (title_derivation asciiHost 3
      (addMessage asciiHost 2 (utf16 "user") (.str (utf16 "my laptop does not start any more!!"))
        (createNewChat asciiHost 1 1 1 initialState).state).state).2 (utf16 "chat_1")
      { id := utf16 "chat_1", title := utf16 "my laptop does not start any m...",
        messages :=
          [{ role := utf16 "user", content := .str (utf16 "my laptop does not start any more!!"),
             timestamp := 2 }],
        created := 1 }
      (utf16 "user") (.str (utf16 "it is a work laptop")) (by decide) (by decide)⟩

/-! ## A turn that fails -/

theorem setInputEnabled_messagesOf (key : JsString) (enabled : Bool) (s : State) :
    messagesOf key (setInputEnabled enabled s) = messagesOf key s := rfl

/-- When `addMessage` returns on an existing thread, the messages the thread
held are strings. -/
theorem stringsOnly_of_addMessage_returned (host : Host) (now : Nat) (role : JsString)
    (content : JsVal) (s : State) (chat : ChatThread)
    (h : s.chats.get s.currentChatId.key = some chat)
    (ht : (addMessage host now role content s).thrown = none) :
    stringsOnly chat.messages = true := by
  cases hs : stringsOnly chat.messages with
  | true => rfl
  | false =>
    obtain ⟨error, he⟩ := addMessage_thrown_of_not_strings host now role content s chat h hs
    rw [he] at ht
    exact Option.noConfusion ht

/-- What `sendMessage` has done when it issues a request: the query is not
empty, `addMessage` returned, the input is disabled, and the request is built
from the state that `addMessage` left. -/
theorem sendMessageStart_of_request (host : Host) (now : Nat) (rawInput : JsString) (s : State)
    (request : Request) (h : (sendMessageStart host now rawInput s).2 = some request) :
    trim rawInput ≠ [] ∧
    (addMessage host now (utf16 "user") (.str (trim rawInput)) s).thrown = none ∧
    (sendMessageStart host now rawInput s).1 =
      { state := setInputEnabled false (pushMessage now (utf16 "user") (.str (trim rawInput)) s)
        thrown := none } ∧
    ∃ chat1,
      (pushMessage now (utf16 "user") (.str (trim rawInput)) s).chats.get s.currentChatId.key =
        some chat1 ∧
      request =
        { query := trim rawInput
          chat_id := s.currentChatId
          conversation_history := chat1.messages
          pending_action := s.pendingAction
          pending_state := s.pendingState
          original_query := s.originalQuery } := by
  have hq : trim rawInput ≠ [] := by
    intro hq
    simp [sendMessageStart, hq] at h
  cases ht : (addMessage host now (utf16 "user") (.str (trim rawInput)) s).thrown with
  | some error => simp [sendMessageStart, hq, ht] at h
  | none =>
    cases hget : (pushMessage now (utf16 "user") (.str (trim rawInput)) s).chats.get
        s.currentChatId.key with
    | none => simp [sendMessageStart, hq, ht, addMessage_state, hget] at h
    | some chat1 =>
      have hstart : sendMessageStart host now rawInput s =
          ({ state := setInputEnabled false
              (pushMessage now (utf16 "user") (.str (trim rawInput)) s)
             thrown := none },
            some
              { query := trim rawInput
                chat_id := s.currentChatId
                conversation_history := chat1.messages
                pending_action := s.pendingAction
                pending_state := s.pendingState
                original_query := s.originalQuery }) := by
        unfold sendMessageStart
        simp only [hq, if_false, ht, addMessage_state, hget]
      rw [hstart] at h ⊢
      simp only [Option.some.injEq] at h
      exact ⟨hq, rfl, rfl, chat1, rfl, h.symm⟩

/-- On an existing active thread whose messages are strings, `sendMessage`
with a non-empty query appends the message, disables the input and issues the
request. -/
theorem sendMessageStart_of_strings (host : Host) (now : Nat) (rawInput : JsString) (s : State)
    (chat : ChatThread) (h : s.chats.get s.currentChatId.key = some chat)
    (hstrings : stringsOnly chat.messages = true) (hq : trim rawInput ≠ []) :
    sendMessageStart host now rawInput s =
      ({ state := setInputEnabled false (pushMessage now (utf16 "user") (.str (trim rawInput)) s)
         thrown := none },
        some
          { query := trim rawInput
            chat_id := s.currentChatId
            conversation_history :=
              chat.messages ++
                [{ role := utf16 "user", content := .str (trim rawInput), timestamp := now }]
            pending_action := s.pendingAction
            pending_state := s.pendingState
            original_query := s.originalQuery }) := by
  have ht := addMessage_thrown_of_strings host now (utf16 "user") (.str (trim rawInput)) s chat h
    hstrings rfl
  obtain ⟨chat1, hget, hmsg, -, -⟩ :=
    pushMessage_get now (utf16 "user") (.str (trim rawInput)) s chat h
  unfold sendMessageStart
  simp only [hq, if_false, ht, addMessage_state, hget, hmsg]

/-- The `catch` block appends one assistant message to the thread that is
active when it runs and keeps the session triple. -/
theorem sendMessageFinish_failed (host : Host) (now catchClock : Nat)
    (errorMessage : JsString) (s : State) (chat : ChatThread)
    (h : s.chats.get s.currentChatId.key = some chat) :
    messagesOf s.currentChatId.key
        (sendMessageFinish host now catchClock (.failed errorMessage) s).state =
      chat.messages ++
        [{ role := utf16 "assistant", content := .str (utf16 "Error: " ++ errorMessage),
           timestamp := now }] ∧
    (sendMessageFinish host now catchClock (.failed errorMessage) s).state.session =
      s.session := by
  have hst : (sendMessageFinish host now catchClock (.failed errorMessage) s).state =
      setInputEnabled true (pushMessage now (utf16 "assistant")
        (.str (utf16 "Error: " ++ errorMessage)) s) := by
    simp [sendMessageFinish, catchAndFinally_state]
  rw [hst]
  exact ⟨pushMessage_messagesOf now (utf16 "assistant") (.str (utf16 "Error: " ++ errorMessage))
    s chat h, pushMessage_session_eq _ _ _ s⟩

/-- C6, failure keeps the pending action: on an existing active thread, a turn
of `sendMessage` that issues its request and whose remote call or reply
parsing fails appends the `user` message and then one `assistant` message with
content `Error: ` followed by the description of the error, the session
triple after the turn is the triple before it, and the turn ends without an
error.  The request is issued when the query is not empty and the messages of
the thread are strings. -/
theorem failed_turn_keeps_session (host : Host)
    (userClock replyClock catchClock : Nat) (rawInput errorMessage : JsString) (s : State)
    (chat : ChatThread) (request : Request) (h : s.chats.get s.currentChatId.key = some chat)
    (hreq : (sendMessageStart host userClock rawInput s).2 = some request) :
    messagesOf s.currentChatId.key
        (sendMessage host userClock replyClock catchClock rawInput (.failed errorMessage)
          s).state =
      chat.messages ++
        [{ role := utf16 "user", content := .str (trim rawInput), timestamp := userClock },
          { role := utf16 "assistant", content := .str (utf16 "Error: " ++ errorMessage),
            timestamp := replyClock }] ∧
    (sendMessage host userClock replyClock catchClock rawInput (.failed errorMessage)
      s).state.session = s.session ∧
    (sendMessage host userClock replyClock catchClock rawInput (.failed errorMessage)
      s).thrown = none ∧
    ((stringsOnly chat.messages = true ∧ trim rawInput ≠ []) ↔
      ∃ request1, (sendMessageStart host userClock rawInput s).2 = some request1) := by
  obtain ⟨hq, ht, hstart, -⟩ := sendMessageStart_of_request host userClock rawInput s request hreq
  have hstrings := stringsOnly_of_addMessage_returned host userClock (utf16 "user")
    (.str (trim rawInput)) s chat h ht
  obtain ⟨chat1, hget, hmsg, -, -⟩ :=
    pushMessage_get userClock (utf16 "user") (.str (trim rawInput)) s chat h
  have hcur := pushMessage_currentChatId userClock (utf16 "user") (.str (trim rawInput)) s
  have hses := pushMessage_session_eq userClock (utf16 "user") (.str (trim rawInput)) s
  have hget1 : (setInputEnabled false (pushMessage userClock (utf16 "user")
      (.str (trim rawInput)) s)).chats.get (setInputEnabled false (pushMessage userClock
        (utf16 "user") (.str (trim rawInput)) s)).currentChatId.key = some chat1 := by
    simpa [setInputEnabled, hcur] using hget
  have hstrings1 : stringsOnly chat1.messages = true := by
    rw [hmsg, stringsOnly_append, hstrings]; rfl
  have hfin := sendMessageFinish_failed host replyClock catchClock errorMessage _ chat1 hget1
  have hturn : sendMessage host userClock replyClock catchClock rawInput (.failed errorMessage)
      s = sendMessageFinish host replyClock catchClock (.failed errorMessage)
        (setInputEnabled false (pushMessage userClock (utf16 "user") (.str (trim rawInput))
          s)) := by
    unfold sendMessage
    rw [sendMessageStart_of_strings host userClock rawInput s chat h hstrings hq]
  have hcur1 : (setInputEnabled false (pushMessage userClock (utf16 "user")
      (.str (trim rawInput)) s)).currentChatId = s.currentChatId := hcur
  rw [hturn]
  refine ⟨?_, ?_, ?_, ?_⟩
  · have h1 := hfin.1
    rw [hcur1, hmsg] at h1
    simpa using h1
  · rw [hfin.2]
    simpa [setInputEnabled, State.session] using hses
  · simp only [sendMessageFinish, catchAndFinally]
    exact addMessage_thrown_of_strings host replyClock (utf16 "assistant") _ _ chat1 hget1
      hstrings1 rfl
  · constructor
    · intro _
      exact ⟨request, hreq⟩
    · intro _
      exact ⟨hstrings, hq⟩

/-- C6 on a turn taken while a confirmation is pending. -/
theorem failed_turn_keeps_session_witness :
    messagesOf (utf16 "chat_2")
      (sendMessage asciiHost 6 7 8 (utf16 "  yes please \n") (.failed (utf16 "Failed to fetch"))
        (run asciiHost initialState pendingTrace)).state =
      [{ role := utf16 "user", content := .str (utf16 "reset my password"), timestamp := 3 },
        { role := utf16 "assistant", content := .str (utf16 "Shall I open a ticket?"),
          timestamp := 4 },
        { role := utf16 "user", content := .str (utf16 "yes please"), timestamp := 6 },
        { role := utf16 "assistant", content := .str (utf16 "Error: Failed to fetch"),
          timestamp := 7 }] ∧
    (sendMessage asciiHost 6 7 8 (utf16 "  yes please \n") (.failed (utf16 "Failed to fetch"))
      (run asciiHost initialState pendingTrace)).state.session =
      (.str (utf16 "create_ticket"), .obj (utf16 "[object Object]"),
        .str (utf16 "reset my password")) :=
  have h := failed_turn_keeps_session asciiHost 6 7 8 (utf16 "  yes please \n")
    (utf16 "Failed to fetch") (run asciiHost initialState pendingTrace)
    { id := utf16 "chat_2", title := utf16 "reset my password",
      messages :=
        [{ role := utf16 "user", content := .str (utf16 "reset my password"), timestamp := 3 },
          { role := utf16 "assistant", content := .str (utf16 "Shall I open a ticket?"),
            timestamp := 4 }],
      created := 2 }
    { query := utf16 "yes please"
      chat_id := .str (utf16 "chat_2")
      conversation_history :=
        [{ role := utf16 "user", content := .str (utf16 "reset my password"), timestamp := 3 },
          { role := utf16 "assistant", content := .str (utf16 "Shall I open a ticket?"),
            timestamp := 4 },
          { role := utf16 "user", content := .str (utf16 "yes please"), timestamp := 6 }]
      pending_action := .str (utf16 "create_ticket")
      pending_state := .obj (utf16 "[object Object]")
      original_query := .str (utf16 "reset my password") }
    (by decide) (by decide)
  ⟨h.1.trans (by decide), h.2.1.trans (by decide)⟩

/-! ## Deleting a thread -/

/-- C7 as stated fails: three chats are created at times 1, 2 and 3, the last
one is active; once it is deleted the list shows `chat_2`, the later of the two
that remain, first, and the active thread is `chat_1`. -/
theorem deleteChat_activates_oldest :
    2 ≤ (run asciiHost initialState
      [.createNewChat 1 1 1, .createNewChat 2 2 2, .createNewChat 3 3 3]).chats.length ∧
    (run asciiHost initialState
      [.createNewChat 1 1 1, .createNewChat 2 2 2, .createNewChat 3 3 3]).currentChatId =
      .str (utf16 "chat_3") ∧
    (renderChatList (deleteChat asciiHost 4 (.str (utf16 "chat_3")) (run asciiHost initialState
      [.createNewChat 1 1 1, .createNewChat 2 2 2, .createNewChat 3 3 3])).state.chats).map
        (fun chat => (chat.id, chat.created)) = [(utf16 "chat_2", 2), (utf16 "chat_1", 1)] ∧
    (deleteChat asciiHost 4 (.str (utf16 "chat_3")) (run asciiHost initialState
      [.createNewChat 1 1 1, .createNewChat 2 2 2, .createNewChat 3 3 3])).state.currentChatId =
      .str (utf16 "chat_1") ∧
    ¬ ((deleteChat asciiHost 4 (.str (utf16 "chat_3")) (run asciiHost initialState
      [.createNewChat 1 1 1, .createNewChat 2 2 2, .createNewChat 3 3 3])).state.currentChatId =
      .str (utf16 "chat_2")) := by
  decide

/-- C7, amended: in a state with at least two threads, whose keys are pairwise
different as the keys of an object are, `deleteChat(id)` with `id` the active
thread makes active the first remaining thread in the key order of the store,
`Object.keys(chats)[0]`; the store is not empty, so this is the key of a
thread. -/
theorem deleteChat_activates_first_key (host : Host) (now : Nat) (chatId : ChatId) (s : State)
    (hlen : 2 ≤ s.chats.length) (hkeys : s.chats.keys.Nodup)
    (hactive : s.currentChatId = chatId) :
    (deleteChat host now chatId s).state.currentChatId = (s.chats.delete chatId.key).firstKey ∧
    ∃ key chat rest, s.chats.delete chatId.key = (key, chat) :: rest ∧
      (deleteChat host now chatId s).state.currentChatId = .str key := by
  subst hactive
  have h1 : ¬ s.chats.length = 1 := by omega
  have hmissing : ({ s with chats := s.chats.delete s.currentChatId.key } : State).chats.get
      ({ s with chats := s.chats.delete s.currentChatId.key } : State).currentChatId.key =
        none :=
    Chats.get_delete_same s.currentChatId.key s.chats hkeys
  have hcur : (deleteChat host now s.currentChatId s).state.currentChatId =
      (s.chats.delete s.currentChatId.key).firstKey := by
    unfold deleteChat
    simp only [h1, if_false, if_true]
    rcases switchToChat_currentChatId host now (s.chats.delete s.currentChatId.key).firstKey
      { s with chats := s.chats.delete s.currentChatId.key } with hto | ⟨-, -, error, hthrown⟩
    · exact hto
    · rw [addMessage_of_missing host now _ _ _ hmissing] at hthrown
      exact Option.noConfusion hthrown
  refine ⟨hcur, ?_⟩
  have hdel := Chats.length_le_length_delete_succ s.currentChatId.key s.chats
  cases hrem : s.chats.delete s.currentChatId.key with
  | nil => simp [hrem] at hdel; omega
  | cons kv rest =>
    obtain ⟨key, chat⟩ := kv
    exact ⟨key, chat, rest, rfl, by rw [hcur, hrem]; rfl⟩

/-- The amended C7 on three chats of which the active, latest one is
deleted. -/
theorem deleteChat_activates_first_key_witness :
    (deleteChat asciiHost 4 (.str (utf16 "chat_3")) (run asciiHost initialState
      [.createNewChat 1 1 1, .createNewChat 2 2 2, .createNewChat 3 3 3])).state.currentChatId =
      (Chats.delete (utf16 "chat_3") (run asciiHost initialState
        [.createNewChat 1 1 1, .createNewChat 2 2 2, .createNewChat 3 3 3]).chats).firstKey :=
  (deleteChat_activates_first_key asciiHost 4 (.str (utf16 "chat_3")) (run asciiHost initialState
    [.createNewChat 1 1 1, .createNewChat 2 2 2, .createNewChat 3 3 3])
    (by decide) (by decide) (by decide)).1

/-- C8, the last thread cannot be deleted: on a store of exactly one thread
`deleteChat(id)` takes, for every id, the branch that shows the notice and
returns; the state after the call is the state before it. -/
theorem deleteChat_last_thread_rejected (host : Host) (now : Nat) (chatId : ChatId) (s : State)
    (h : s.chats.length = 1) :
    deleteChatAlert s = some (utf16 "Cannot delete the last chat") ∧
    deleteChat host now chatId s = { state := s, thrown := none } := by
  simp [deleteChatAlert, deleteChat, h]

/-- C8 on the chat made at start-up, for its own id and for an unknown id. -/
theorem deleteChat_last_thread_rejected_witness :
    (onLoad asciiHost none 1 1 1).state.chats.length = 1 ∧
    (deleteChat asciiHost 2 (.str (utf16 "chat_1")) (onLoad asciiHost none 1 1 1).state).state =
      (onLoad asciiHost none 1 1 1).state ∧
    (deleteChat asciiHost 2 (.str (utf16 "chat_7")) (onLoad asciiHost none 1 1 1).state).state =
      (onLoad asciiHost none 1 1 1).state :=
  ⟨by decide,
    congrArg Result.state (deleteChat_last_thread_rejected asciiHost 2 (.str (utf16 "chat_1"))
      (onLoad asciiHost none 1 1 1).state (by decide)).2,
    congrArg Result.state (deleteChat_last_thread_rejected asciiHost 2 (.str (utf16 "chat_7"))
      (onLoad asciiHost none 1 1 1).state (by decide)).2⟩

/-! ## Replies -/

/-- C9, unrecognized tag: when `data.type` is none of the seven tags
`handleResponse` returns, and the state is the state it was given, so no
thread gets a message and the session triple, the store and the active thread
are as before. -/
theorem handleResponse_unrecognized (host : Host) (now : Nat)
    (data : Response) (s : State)
    (h1 : data.type ≠ .str (utf16 "INFO_QUERY"))
    (h2 : data.type ≠ .str (utf16 "CONFIRMATION_NEEDED"))
    (h3 : data.type ≠ .str (utf16 "TICKET_GENERATED"))
    (h4 : data.type ≠ .str (utf16 "TICKET_UPDATED"))
    (h5 : data.type ≠ .str (utf16 "TICKET_EXPORTED"))
    (h6 : data.type ≠ .str (utf16 "CUSTOM_DESC_PROMPT"))
    (h7 : data.type ≠ .str (utf16 "CLARIFICATION_NEEDED")) :
    handleResponse host now data s = { state := s, thrown := none } := by
  simp [handleResponse, h1, h2, h3, h4, h5, h6, h7]

/-- C9 on a reply with a tag of a later version of the service, received while
a confirmation is pending. -/
theorem handleResponse_unrecognized_witness :
    (handleResponse asciiHost 9
      { type := .str (utf16 "TICKET_CLOSED")
        content := [(utf16 "message", .str (utf16 "Closed."))]
        pending_action := .str (utf16 "close_ticket")
        pending_state := .null
        original_query := .undefined }
      (run asciiHost initialState pendingTrace)).state =
      run asciiHost initialState pendingTrace :=
  congrArg Result.state (handleResponse_unrecognized asciiHost 9
    { type := .str (utf16 "TICKET_CLOSED")
      content := [(utf16 "message", .str (utf16 "Closed."))]
      pending_action := .str (utf16 "close_ticket")
      pending_state := .null
      original_query := .undefined }
    (run asciiHost initialState pendingTrace) (by decide) (by decide) (by decide) (by decide)
    (by decide) (by decide) (by decide))

/-! ## Terminal replies -/

/-- A case of `handleResponse` on a thread whose messages are strings, with a
string to show: the call returns, the message is on the active thread, which
stays active and holds strings only, and the session is the one assigned. -/
theorem reply_case (host : Host) (now : Nat) (content : JsString) (action state query : JsVal)
    (s : State) (chat : ChatThread) (h : s.chats.get s.currentChatId.key = some chat)
    (hstrings : stringsOnly chat.messages = true) :
    ∃ chat1,
      ((addMessage host now (utf16 "assistant") (.str content) s).andThen fun s1 =>
          { state := setSession action state query s1, thrown := none }) =
        { state := setSession action state query
            (pushMessage now (utf16 "assistant") (.str content) s)
          thrown := none } ∧
      (setSession action state query
        (pushMessage now (utf16 "assistant") (.str content) s)).chats.get
          s.currentChatId.key = some chat1 ∧
      chat1.messages =
        chat.messages ++
          [{ role := utf16 "assistant", content := .str content, timestamp := now }] ∧
      stringsOnly chat1.messages = true ∧
      (setSession action state query
        (pushMessage now (utf16 "assistant") (.str content) s)).currentChatId =
          s.currentChatId := by
  obtain ⟨chat1, hget, hmsg, -, -⟩ :=
    pushMessage_get now (utf16 "assistant") (.str content) s chat h
  refine ⟨chat1, addMessage_andThen_of_strings host now content action state query s chat h
    hstrings, hget, hmsg, ?_, pushMessage_currentChatId _ _ _ s⟩
  rw [hmsg, stringsOnly_append, hstrings]
  rfl

/-- A terminal case taken twice on a thread whose messages are strings. -/
theorem terminal_case_twice (host : Host) (first second : Nat) (content : JsString) (s : State)
    (chat : ChatThread) (h : s.chats.get s.currentChatId.key = some chat)
    (hstrings : stringsOnly chat.messages = true)
    (call : Nat → State → Result)
    (hcall : ∀ now t, call now t =
      (addMessage host now (utf16 "assistant") (.str content) t).andThen fun s1 =>
        { state := setSession .null .null .null s1, thrown := none }) :
    messagesOf s.currentChatId.key (call first s).state =
      chat.messages ++
        [{ role := utf16 "assistant", content := .str content, timestamp := first }] ∧
    messagesOf s.currentChatId.key (call second (call first s).state).state =
      chat.messages ++
        [{ role := utf16 "assistant", content := .str content, timestamp := first },
          { role := utf16 "assistant", content := .str content, timestamp := second }] ∧
    sessionCleared (call first s).state ∧
    sessionCleared (call second (call first s).state).state ∧
    (call first s).thrown = none ∧
    (call second (call first s).state).thrown = none := by
  obtain ⟨chat1, hr1, hget1, hmsg1, hstr1, hcur1⟩ :=
    reply_case host first content .null .null .null s chat h hstrings
  have hget1a := hget1
  rw [← hcur1] at hget1a
  obtain ⟨chat2, hr2, hget2, hmsg2, -, -⟩ :=
    reply_case host second content .null .null .null _ chat1 hget1a hstr1
  rw [hcur1] at hget2
  have h1 := (hcall first s).trans hr1
  have h2 := (hcall second (setSession .null .null .null
    (pushMessage first (utf16 "assistant") (.str content) s))).trans hr2
  rw [h1, h2]
  refine ⟨?_, ?_, ?_, ?_, rfl, rfl⟩
  · simp [messagesOf, hget1, hmsg1]
  · simp [messagesOf, hget2, hmsg2, hmsg1]
  · simp [setSession, sessionCleared, JsVal.absent]
  · simp [setSession, sessionCleared, JsVal.absent]

/-- C10 as stated fails: after `pendingTrace` the thread `chat_2` exists and
is active and an action is pending; the `INFO_QUERY` reply without `answer`
appends a message with content `undefined`, `renderMessages` throws on it, and
the three assignments are not reached: the session is populated after the first
call and after the second. -/
theorem terminal_reply_keeps_session :
    (run asciiHost initialState pendingTrace).currentChatId = .str (utf16 "chat_2") ∧
    ((run asciiHost initialState pendingTrace).chats.get (utf16 "chat_2")).isSome = true ∧
    (handleResponse asciiHost 6 answerlessReply
      (run asciiHost initialState pendingTrace)).thrown =
        some (utf16 "replace is not a function") ∧
    sessionPopulated (handleResponse asciiHost 6 answerlessReply
      (run asciiHost initialState pendingTrace)).state ∧
    ¬ sessionCleared (handleResponse asciiHost 6 answerlessReply
      (run asciiHost initialState pendingTrace)).state ∧
    ¬ sessionCleared (handleResponse asciiHost 7 answerlessReply
      (handleResponse asciiHost 6 answerlessReply
        (run asciiHost initialState pendingTrace)).state).state := by
  decide

/-- C10, amended: on an existing active thread whose messages all have a
string as content, `handleResponse` applied twice to the same `INFO_QUERY`
reply whose `data.content.answer` is a string appends exactly two assistant
messages, each with that string as content, the session triple is all absent
after the first and after the second call, and both calls return; likewise
for `TICKET_EXPORTED` with `data.content.message`. -/
theorem terminal_reply_twice (host : Host) (first second : Nat)
    (data : Response) (s : State) (chat : ChatThread) (text : JsString)
    (h : s.chats.get s.currentChatId.key = some chat)
    (hstrings : stringsOnly chat.messages = true) :
    (data.type = .str (utf16 "INFO_QUERY") →
      field (utf16 "answer") data.content = .str text →
      messagesOf s.currentChatId.key (handleResponse host first data s).state =
        chat.messages ++
          [{ role := utf16 "assistant", content := field (utf16 "answer") data.content,
             timestamp := first }] ∧
      messagesOf s.currentChatId.key
          (handleResponse host second data (handleResponse host first data s).state).state =
        chat.messages ++
          [{ role := utf16 "assistant", content := field (utf16 "answer") data.content,
             timestamp := first },
            { role := utf16 "assistant", content := field (utf16 "answer") data.content,
              timestamp := second }] ∧
      sessionCleared (handleResponse host first data s).state ∧
      sessionCleared
        (handleResponse host second data (handleResponse host first data s).state).state ∧
      (handleResponse host first data s).thrown = none ∧
      (handleResponse host second data (handleResponse host first data s).state).thrown =
        none) ∧
    (data.type = .str (utf16 "TICKET_EXPORTED") →
      field (utf16 "message") data.content = .str text →
      messagesOf s.currentChatId.key (handleResponse host first data s).state =
        chat.messages ++
          [{ role := utf16 "assistant", content := field (utf16 "message") data.content,
             timestamp := first }] ∧
      messagesOf s.currentChatId.key
          (handleResponse host second data (handleResponse host first data s).state).state =
        chat.messages ++
          [{ role := utf16 "assistant", content := field (utf16 "message") data.content,
             timestamp := first },
            { role := utf16 "assistant", content := field (utf16 "message") data.content,
              timestamp := second }] ∧
      sessionCleared (handleResponse host first data s).state ∧
      sessionCleared
        (handleResponse host second data (handleResponse host first data s).state).state ∧
      (handleResponse host first data s).thrown = none ∧
      (handleResponse host second data (handleResponse host first data s).state).thrown =
        none) := by
  constructor
  · intro ht hfield
    rw [hfield]
    refine terminal_case_twice host first second text s chat h hstrings
      (fun now t => handleResponse host now data t) ?_
    intro now t
    simp [handleResponse, ht, hfield]
  · intro ht hfield
    rw [hfield]
    refine terminal_case_twice host first second text s chat h hstrings
      (fun now t => handleResponse host now data t) ?_
    intro now t
    have hne1 : utf16 "TICKET_EXPORTED" ≠ utf16 "INFO_QUERY" := by decide
    have hne2 : utf16 "TICKET_EXPORTED" ≠ utf16 "CONFIRMATION_NEEDED" := by decide
    have hne3 : utf16 "TICKET_EXPORTED" ≠ utf16 "TICKET_GENERATED" := by decide
    have hne4 : utf16 "TICKET_EXPORTED" ≠ utf16 "TICKET_UPDATED" := by decide
    simp [handleResponse, ht, hfield, hne1, hne2, hne3, hne4]

/-- The amended C10 on an answer handled twice while a confirmation is
pending. -/
theorem terminal_reply_twice_witness :
    messagesOf (utf16 "chat_2")
      (handleResponse asciiHost 7
        { type := .str (utf16 "INFO_QUERY")
          content := [(utf16 "answer", .str (utf16 "Use the self-service portal."))]
          pending_action := .undefined
          pending_state := .undefined
          original_query := .undefined }
        (handleResponse asciiHost 6
          { type := .str (utf16 "INFO_QUERY")
            content := [(utf16 "answer", .str (utf16 "Use the self-service portal."))]
            pending_action := .undefined
            pending_state := .undefined
            original_query := .undefined }
          (run asciiHost initialState pendingTrace)).state).state =
      [{ role := utf16 "user", content := .str (utf16 "reset my password"), timestamp := 3 },
        { role := utf16 "assistant", content := .str (utf16 "Shall I open a ticket?"),
          timestamp := 4 },
        { role := utf16 "assistant", content := .str (utf16 "Use the self-service portal."),
          timestamp := 6 },
        { role := utf16 "assistant", content := .str (utf16 "Use the self-service portal."),
          timestamp := 7 }] ∧
    sessionCleared (handleResponse asciiHost 6
      { type := .str (utf16 "INFO_QUERY")
        content := [(utf16 "answer", .str (utf16 "Use the self-service portal."))]
        pending_action := .undefined
        pending_state := .undefined
        original_query := .undefined }
      (run asciiHost initialState pendingTrace)).state :=
  have h := (terminal_reply_twice asciiHost 6 7
    { type := .str (utf16 "INFO_QUERY")
      content := [(utf16 "answer", .str (utf16 "Use the self-service portal."))]
      pending_action := .undefined
      pending_state := .undefined
      original_query := .undefined }
    (run asciiHost initialState pendingTrace)
    { id := utf16 "chat_2", title := utf16 "reset my password",
      messages :=
        [{ role := utf16 "user", content := .str (utf16 "reset my password"), timestamp := 3 },
          { role := utf16 "assistant", content := .str (utf16 "Shall I open a ticket?"),
            timestamp := 4 }],
      created := 2 }
    (utf16 "Use the self-service portal.")
    (by decide) (by decide)).1 rfl (by decide)
  ⟨h.2.1.trans (by decide), h.2.2.1⟩

/-! ## Replies that ask for a continuation -/

/-- C11 as stated fails: after `pendingTrace` the thread `chat_2` exists and
is active; a `CLARIFICATION_NEEDED` reply whose content has no `message`
appends a message with content `undefined`, `renderMessages` throws on it, and
the session is not assigned from the reply: `pendingAction` is still
`create_ticket`, not `clarify`. -/
theorem continuation_reply_keeps_session :
    (run asciiHost initialState pendingTrace).currentChatId = .str (utf16 "chat_2") ∧
    ((run asciiHost initialState pendingTrace).chats.get (utf16 "chat_2")).isSome = true ∧
    (handleResponse asciiHost 6
      { type := .str (utf16 "CLARIFICATION_NEEDED")
        content := []
        pending_action := .str (utf16 "clarify")
        pending_state := .obj (utf16 "[object Object]")
        original_query := .str (utf16 "printer is broken") }
      (run asciiHost initialState pendingTrace)).thrown =
        some (utf16 "replace is not a function") ∧
    (handleResponse asciiHost 6
      { type := .str (utf16 "CLARIFICATION_NEEDED")
        content := []
        pending_action := .str (utf16 "clarify")
        pending_state := .obj (utf16 "[object Object]")
        original_query := .str (utf16 "printer is broken") }
      (run asciiHost initialState pendingTrace)).state.pendingAction =
        .str (utf16 "create_ticket") ∧
    (handleResponse asciiHost 6
      { type := .str (utf16 "CLARIFICATION_NEEDED")
        content := []
        pending_action := .str (utf16 "clarify")
        pending_state := .obj (utf16 "[object Object]")
        original_query := .str (utf16 "printer is broken") }
      (run asciiHost initialState pendingTrace)).state.pendingAction ≠
        .str (utf16 "clarify") := by
  decide

/-- C11, amended: on an existing active thread whose messages all have a
string as content, `handleResponse` on a reply of type `CONFIRMATION_NEEDED`,
`CUSTOM_DESC_PROMPT` or `CLARIFICATION_NEEDED` whose `data.content.message` is
a string appends one assistant message with that string as content, and
afterwards `pendingAction`, `pendingState` and `originalQuery` are
`data.pending_action`, `data.pending_state` and `data.original_query`,
whatever they were before; the call returns. -/
theorem continuation_reply_populates_session (host : Host) (now : Nat)
    (data : Response) (s : State) (chat : ChatThread) (text : JsString)
    (h : s.chats.get s.currentChatId.key = some chat)
    (hstrings : stringsOnly chat.messages = true)
    (ht : data.type = .str (utf16 "CONFIRMATION_NEEDED") ∨
      data.type = .str (utf16 "CUSTOM_DESC_PROMPT") ∨
      data.type = .str (utf16 "CLARIFICATION_NEEDED"))
    (hfield : field (utf16 "message") data.content = .str text) :
    messagesOf s.currentChatId.key (handleResponse host now data s).state =
      chat.messages ++
        [{ role := utf16 "assistant", content := field (utf16 "message") data.content,
           timestamp := now }] ∧
    (handleResponse host now data s).state.pendingAction = data.pending_action ∧
    (handleResponse host now data s).state.pendingState = data.pending_state ∧
    (handleResponse host now data s).state.originalQuery = data.original_query ∧
    (handleResponse host now data s).thrown = none := by
  obtain ⟨chat1, hr, hget, hmsg, -, -⟩ := reply_case host now text data.pending_action
    data.pending_state data.original_query s chat h hstrings
  have hcall : handleResponse host now data s =
      (addMessage host now (utf16 "assistant") (.str text) s).andThen fun s1 =>
        { state := setSession data.pending_action data.pending_state data.original_query s1
          thrown := none } := by
    have hne1 : utf16 "CUSTOM_DESC_PROMPT" ≠ utf16 "INFO_QUERY" := by decide
    have hne2 : utf16 "CUSTOM_DESC_PROMPT" ≠ utf16 "CONFIRMATION_NEEDED" := by decide
    have hne3 : utf16 "CUSTOM_DESC_PROMPT" ≠ utf16 "TICKET_GENERATED" := by decide
    have hne4 : utf16 "CUSTOM_DESC_PROMPT" ≠ utf16 "TICKET_UPDATED" := by decide
    have hne5 : utf16 "CUSTOM_DESC_PROMPT" ≠ utf16 "TICKET_EXPORTED" := by decide
    have hne6 : utf16 "CLARIFICATION_NEEDED" ≠ utf16 "INFO_QUERY" := by decide
    have hne7 : utf16 "CLARIFICATION_NEEDED" ≠ utf16 "CONFIRMATION_NEEDED" := by decide
    have hne8 : utf16 "CLARIFICATION_NEEDED" ≠ utf16 "TICKET_GENERATED" := by decide
    have hne9 : utf16 "CLARIFICATION_NEEDED" ≠ utf16 "TICKET_UPDATED" := by decide
    have hne10 : utf16 "CLARIFICATION_NEEDED" ≠ utf16 "TICKET_EXPORTED" := by decide
    have hne11 : utf16 "CLARIFICATION_NEEDED" ≠ utf16 "CUSTOM_DESC_PROMPT" := by decide
    have hne12 : utf16 "CONFIRMATION_NEEDED" ≠ utf16 "INFO_QUERY" := by decide
    rcases ht with ht | ht | ht
    · simp [handleResponse, ht, hfield, hne12]
    · simp [handleResponse, ht, hfield, hne1, hne2, hne3, hne4, hne5]
    · simp [handleResponse, ht, hfield, hne6, hne7, hne8, hne9, hne10, hne11]
  rw [hcall, hr, hfield]
  refine ⟨?_, rfl, rfl, rfl, rfl⟩
  simp [messagesOf, hget, hmsg]

/-- The amended C11 on a clarification that arrives while another action is
pending. -/
theorem continuation_reply_populates_session_witness :
    messagesOf (utf16 "chat_2") (handleResponse asciiHost 6
      { type := .str (utf16 "CLARIFICATION_NEEDED")
        content := [(utf16 "message", .str (utf16 "Which printer do you mean?"))]
        pending_action := .str (utf16 "clarify")
        pending_state := .obj (utf16 "[object Object]")
        original_query := .str (utf16 "printer is broken") }
      (run asciiHost initialState pendingTrace)).state =
      [{ role := utf16 "user", content := .str (utf16 "reset my password"), timestamp := 3 },
        { role := utf16 "assistant", content := .str (utf16 "Shall I open a ticket?"),
          timestamp := 4 },
        { role := utf16 "assistant", content := .str (utf16 "Which printer do you mean?"),
          timestamp := 6 }] ∧
    (handleResponse asciiHost 6
      { type := .str (utf16 "CLARIFICATION_NEEDED")
        content := [(utf16 "message", .str (utf16 "Which printer do you mean?"))]
        pending_action := .str (utf16 "clarify")
        pending_state := .obj (utf16 "[object Object]")
        original_query := .str (utf16 "printer is broken") }
      (run asciiHost initialState pendingTrace)).state.pendingAction =
        .str (utf16 "clarify") :=
  have key := continuation_reply_populates_session asciiHost 6
    { type := .str (utf16 "CLARIFICATION_NEEDED")
      content := [(utf16 "message", .str (utf16 "Which printer do you mean?"))]
      pending_action := .str (utf16 "clarify")
      pending_state := .obj (utf16 "[object Object]")
      original_query := .str (utf16 "printer is broken") }
    (run asciiHost initialState pendingTrace)
    { id := utf16 "chat_2", title := utf16 "reset my password",
      messages :=
        [{ role := utf16 "user", content := .str (utf16 "reset my password"), timestamp := 3 },
          { role := utf16 "assistant", content := .str (utf16 "Shall I open a ticket?"),
            timestamp := 4 }],
      created := 2 }
    (utf16 "Which printer do you mean?")
    (by decide) (by decide) (by decide) (by decide)
  ⟨key.1.trans (by decide), key.2.1⟩

/-! ## The request -/

/-- C12 as stated fails: after `undefinedContentTrace` the thread `chat_2`
exists and is active and holds a message whose content is `undefined`; on the
input `yes please`, whose trimmed form is not empty, `addMessage('user', query)`
throws in `renderMessages`, before `setInputEnabled(false)` and before `fetch`:
no request is built, and the input stays enabled. -/
theorem request_not_built :
    (run asciiHost initialState undefinedContentTrace).currentChatId =
      .str (utf16 "chat_2") ∧
    ((run asciiHost initialState undefinedContentTrace).chats.get (utf16 "chat_2")).isSome
      = true ∧
    trim (utf16 "  yes please \n") = utf16 "yes please" ∧
    (sendMessageStart asciiHost 9 (utf16 "  yes please \n")
      (run asciiHost initialState undefinedContentTrace)).2 = none ∧
    (sendMessageStart asciiHost 9 (utf16 "  yes please \n")
      (run asciiHost initialState undefinedContentTrace)).1.thrown =
        some (utf16 "replace is not a function") ∧
    (sendMessageStart asciiHost 9 (utf16 "  yes please \n")
      (run asciiHost initialState undefinedContentTrace)).1.state.inputDisabled = false := by
  decide

/-- C12, amended: on an existing active thread with messages `M`, all with a
string as content, and an input whose trimmed form `q` is not empty,
`sendMessage` issues one request with `query = q`, `chat_id` the active
thread id, `conversation_history` the messages `M` followed by the `user`
message with content `q` just appended, and `pending_action`, `pending_state`,
`original_query` the session triple held when the request is sent; the input
is disabled while the request is in flight. -/
theorem request_payload (host : Host) (now : Nat) (rawInput : JsString) (s : State)
    (chat : ChatThread) (h : s.chats.get s.currentChatId.key = some chat)
    (hstrings : stringsOnly chat.messages = true) (hq : trim rawInput ≠ []) :
    (sendMessageStart host now rawInput s).2 =
      some
        { query := trim rawInput
          chat_id := s.currentChatId
          conversation_history :=
            chat.messages ++
              [{ role := utf16 "user", content := .str (trim rawInput), timestamp := now }]
          pending_action := s.pendingAction
          pending_state := s.pendingState
          original_query := s.originalQuery } ∧
    messagesOf s.currentChatId.key (sendMessageStart host now rawInput s).1.state =
      chat.messages ++
        [{ role := utf16 "user", content := .str (trim rawInput), timestamp := now }] ∧
    (sendMessageStart host now rawInput s).1.thrown = none ∧
    (sendMessageStart host now rawInput s).1.state.inputDisabled = true := by
  rw [sendMessageStart_of_strings host now rawInput s chat h hstrings hq]
  refine ⟨rfl, ?_, rfl, rfl⟩
  rw [setInputEnabled_messagesOf]
  exact pushMessage_messagesOf now (utf16 "user") (.str (trim rawInput)) s chat h

/-- The amended C12 on a reply to a confirmation prompt, typed with blanks
around it. -/
theorem request_payload_witness :
    trim (utf16 "  yes please \n") ≠ [] ∧
    (sendMessageStart asciiHost 6 (utf16 "  yes please \n")
      (run asciiHost initialState pendingTrace)).2 =
      some
        { query := utf16 "yes please"
          chat_id := .str (utf16 "chat_2")
          conversation_history :=
            [{ role := utf16 "user", content := .str (utf16 "reset my password"),
               timestamp := 3 },
              { role := utf16 "assistant", content := .str (utf16 "Shall I open a ticket?"),
                timestamp := 4 },
              { role := utf16 "user", content := .str (utf16 "yes please"), timestamp := 6 }]
          pending_action := .str (utf16 "create_ticket")
          pending_state := .obj (utf16 "[object Object]")
          original_query := .str (utf16 "reset my password") } :=
  ⟨by decide,
    (request_payload asciiHost 6 (utf16 "  yes please \n")
      (run asciiHost initialState pendingTrace)
      { id := utf16 "chat_2", title := utf16 "reset my password",
        messages :=
          [{ role := utf16 "user", content := .str (utf16 "reset my password"), timestamp := 3 },
            { role := utf16 "assistant", content := .str (utf16 "Shall I open a ticket?"),
              timestamp := 4 }],
        created := 2 }
      (by decide) (by decide) (by decide)).1.trans (by decide)⟩

/-- C18, empty input: when the trimmed input is the empty string `sendMessage`
returns before it does anything: no request is issued and the state, hence the
store with all its messages, the active thread and the session triple, is the
one before the call, whatever the call is said to end with. -/
theorem empty_input_noop (host : Host) (userClock replyClock catchClock : Nat)
    (rawInput : JsString) (outcome : Outcome) (s : State) (hq : trim rawInput = []) :
    sendMessageStart host userClock rawInput s = ({ state := s, thrown := none }, none) ∧
    sendMessage host userClock replyClock catchClock rawInput outcome s =
      { state := s, thrown := none } := by
  have hstart : sendMessageStart host userClock rawInput s =
      ({ state := s, thrown := none }, none) := by
    simp [sendMessageStart, hq]
  exact ⟨hstart, by simp [sendMessage, hstart]⟩

/-- C18 on an input of blanks, a tab and a line break. -/
theorem empty_input_noop_witness :
    trim (utf16 "  \t \n") = [] ∧
    sendMessageStart asciiHost 5 (utf16 "  \t \n") (onLoad asciiHost none 1 1 1).state =
      ({ state := (onLoad asciiHost none 1 1 1).state, thrown := none }, none) :=
  ⟨by decide,
    (empty_input_noop asciiHost 5 6 7 (utf16 "  \t \n") (.failed (utf16 "Failed to fetch"))
      (onLoad asciiHost none 1 1 1).state (by decide)).1⟩

/-! ## A new chat -/

theorem pushMessage_of_missing (now : Nat) (role : JsString) (content : JsVal) (s : State)
    (h : s.chats.get s.currentChatId.key = none) : pushMessage now role content s = s := by
  simp [pushMessage, h]

theorem pushMessage_get_other (now : Nat) (role : JsString) (content : JsVal) (s : State)
    (key : JsString) (hkey : key ≠ s.currentChatId.key) :
    (pushMessage now role content s).chats.get key = s.chats.get key := by
  unfold pushMessage
  cases hcur : s.chats.get s.currentChatId.key with
  | none => rfl
  | some active => exact Chats.get_set_other _ _ _ _ hkey

theorem pushMessage_keys (now : Nat) (role : JsString) (content : JsVal) (s : State) :
    (pushMessage now role content s).chats.keys = s.chats.keys := by
  unfold pushMessage
  cases hcur : s.chats.get s.currentChatId.key with
  | none => rfl
  | some active => exact Chats.keys_set_of_get _ _ active _ hcur

/-- The store after `switchToChat`: the store before, with the notice appended
to the active thread when a cancellation was begun and the active thread
exists. -/
theorem switchToChat_chats_notice (host : Host) (now : Nat) (chatId : ChatId) (s : State) :
    (switchToChat host now chatId s).state.chats =
      if s.currentChatId ≠ chatId ∧ isPending s = true then
        match s.chats.get s.currentChatId.key with
        | some chat =>
          s.chats.set s.currentChatId.key
            { chat with messages := chat.messages ++ [cancellationNotice now] }
        | none => s.chats
      else s.chats := by
  rw [switchToChat_chats]
  split
  · cases hget : s.chats.get s.currentChatId.key with
    | none => rw [pushMessage_of_missing _ _ _ _ hget]
    | some chat =>
      rw [pushMessage_chats_of_ne_user _ _ _ _ chat hget utf16_system_ne_user]
      rfl
  · rfl

/-- When the notice can be shown, `switchToChat` ends with the thread asked
for as the active one. -/
theorem switchToChat_currentChatId_of_strings (host : Host) (now : Nat) (chatId : ChatId)
    (s : State)
    (h : s.pendingAction.truthy = true →
      ∀ chat, s.chats.get s.currentChatId.key = some chat → stringsOnly chat.messages = true) :
    (switchToChat host now chatId s).state.currentChatId = chatId := by
  rcases switchToChat_currentChatId host now chatId s with hto | ⟨-, hp, error, hthrown⟩
  · exact hto
  · exfalso
    have hreturned : (addMessage host now (utf16 "system")
        (.str (utf16 "Pending action cancelled.")) s).thrown = none := by
      cases hact : s.chats.get s.currentChatId.key with
      | none => rw [addMessage_of_missing host now _ _ _ hact]
      | some active =>
        exact addMessage_thrown_of_strings host now _ _ _ active hact (h hp active hact) rfl
    rw [hreturned] at hthrown
    exact Option.noConfusion hthrown

/-- At a clock value whose id is new, the threads that were in the store
are still there after `createNewChat`; the one that was active has the
cancellation notice appended when an action is pending. -/
theorem createNewChat_get_of_fresh (host : Host) (idClock createdClock now : Nat) (s : State)
    (hfresh : s.chats.get (utf16 "chat_" ++ utf16 (toString idClock)) = none)
    (key : JsString) (chat : ChatThread) (hget : s.chats.get key = some chat) :
    (createNewChat host idClock createdClock now s).state.chats.get key =
      some
        (if isPending s = true ∧ key = s.currentChatId.key then
          { chat with messages := chat.messages ++ [cancellationNotice now] }
        else chat) := by
  have hk : key ≠ utf16 "chat_" ++ utf16 (toString idClock) := by
    intro hk
    rw [hk, hfresh] at hget
    exact Option.noConfusion hget
  unfold createNewChat
  rw [switchToChat_chats_notice]
  simp only [isPending]
  by_cases hcond : s.currentChatId ≠ ChatId.str (utf16 "chat_" ++ utf16 (toString idClock)) ∧
      s.pendingAction.truthy = true
  · have hne := ChatId.key_ne_new s.currentChatId (utf16 (toString idClock)) hcond.1
    simp only [hcond, and_self, if_true, Chats.get_set_other _ _ _ _ hne, ne_eq,
      not_false_eq_true, true_and]
    by_cases hcur : key = s.currentChatId.key
    · subst hcur
      simp [hget, Chats.get_set_same]
    · cases hact : s.chats.get s.currentChatId.key with
      | none => simp [Chats.get_set_other _ _ _ _ hk, hget, hcur]
      | some active =>
        simp [Chats.get_set_other _ _ _ _ hcur, Chats.get_set_other _ _ _ _ hk, hget, hcur]
  · simp only [hcond, if_false, Chats.get_set_other _ _ _ _ hk, hget]
    have hno : ¬ (s.pendingAction.truthy = true ∧ key = s.currentChatId.key) := by
      rintro ⟨hp, hcur⟩
      apply hcond
      refine ⟨?_, hp⟩
      intro hc
      apply hk
      rw [hcur, hc]
      rfl
    simp [hno]

/-- C13 as stated fails, in three ways.  With an action pending,
`createNewChat` at a clock value whose id is new appends the cancellation
notice to the thread that was active, so a thread that was there before has
changed.  At a clock value whose id `chat_1` is the key of a thread of the
store, the number of threads stays the same and that thread is replaced by an
empty one.  And with an action pending in a thread that holds a message whose
content is `undefined`, the notice cannot be shown and the new thread is not
the active one. -/
theorem createNewChat_changes_threads :
    ((run asciiHost initialState pendingTrace).chats.get (utf16 "chat_9") = none ∧
      messagesOf (utf16 "chat_2")
          (createNewChat asciiHost 9 9 9 (run asciiHost initialState pendingTrace)).state =
        [{ role := utf16 "user", content := .str (utf16 "reset my password"), timestamp := 3 },
          { role := utf16 "assistant", content := .str (utf16 "Shall I open a ticket?"),
            timestamp := 4 },
          { role := utf16 "system", content := .str (utf16 "Pending action cancelled."),
            timestamp := 9 }] ∧
      messagesOf (utf16 "chat_2") (run asciiHost initialState pendingTrace) =
        [{ role := utf16 "user", content := .str (utf16 "reset my password"), timestamp := 3 },
          { role := utf16 "assistant", content := .str (utf16 "Shall I open a ticket?"),
            timestamp := 4 }]) ∧
    ((run asciiHost initialState
          [.createNewChat 1 1 1, .sendMessage 2 (utf16 "hello")]).chats.get (utf16 "chat_1") =
        some
          { id := utf16 "chat_1", title := utf16 "hello",
            messages := [{ role := utf16 "user", content := .str (utf16 "hello"), timestamp := 2 }],
            created := 1 } ∧
      (createNewChat asciiHost 1 3 3
        (run asciiHost initialState
          [.createNewChat 1 1 1, .sendMessage 2 (utf16 "hello")])).state.chats =
        [(utf16 "chat_1",
          { id := utf16 "chat_1", title := utf16 "New Chat", messages := [], created := 3 })] ∧
      ¬ ((createNewChat asciiHost 1 3 3
          (run asciiHost initialState
            [.createNewChat 1 1 1, .sendMessage 2 (utf16 "hello")])).state.chats.length =
        (run asciiHost initialState
          [.createNewChat 1 1 1, .sendMessage 2 (utf16 "hello")]).chats.length + 1)) ∧
    ((run asciiHost initialState undefinedContentTrace).chats.get (utf16 "chat_9") = none ∧
      (createNewChat asciiHost 9 9 9
        (run asciiHost initialState undefinedContentTrace)).thrown =
          some (utf16 "replace is not a function") ∧
      (createNewChat asciiHost 9 9 9
        (run asciiHost initialState undefinedContentTrace)).state.currentChatId =
          .str (utf16 "chat_2")) := by
  decide

/-- C13, amended: at a clock value whose id `chat_` followed by the value is
not a key of the store, and when, in case `pendingAction` counts as true, the
messages of the active thread all have a string as content, `createNewChat`
adds exactly one thread, stored under that id, with title `New Chat`, no
messages and the creation time read, and makes it the active thread; every
thread that was in the store is still there, as it was, except that the thread
which was active receives the cancellation notice as one more message when
`pendingAction` counts as true. -/
theorem createNewChat_fresh (host : Host) (idClock createdClock now : Nat) (s : State)
    (hfresh : s.chats.get (utf16 "chat_" ++ utf16 (toString idClock)) = none)
    (hstrings : s.pendingAction.truthy = true →
      ∀ chat, s.chats.get s.currentChatId.key = some chat → stringsOnly chat.messages = true) :
    (createNewChat host idClock createdClock now s).state.chats.length = s.chats.length + 1 ∧
    (createNewChat host idClock createdClock now s).state.chats.get
        (utf16 "chat_" ++ utf16 (toString idClock)) =
      some
        { id := utf16 "chat_" ++ utf16 (toString idClock), title := utf16 "New Chat",
          messages := [], created := createdClock } ∧
    (createNewChat host idClock createdClock now s).state.currentChatId =
      .str (utf16 "chat_" ++ utf16 (toString idClock)) ∧
    ∀ (key : JsString) (chat : ChatThread), s.chats.get key = some chat →
      (createNewChat host idClock createdClock now s).state.chats.get key =
        some
          (if isPending s = true ∧ key = s.currentChatId.key then
            { chat with messages := chat.messages ++ [cancellationNotice now] }
          else chat) := by
  refine ⟨?_, ?_, ?_, ?_⟩
  · unfold createNewChat
    simp only [switchToChat_chats_length]
    exact Chats.length_set_of_get_none _ _ _ hfresh
  · unfold createNewChat
    rw [switchToChat_chats_notice]
    simp only [isPending]
    split
    · rename_i hcond
      have hne := ChatId.key_ne_new s.currentChatId (utf16 (toString idClock)) hcond.1
      split
      · rw [Chats.get_set_other _ _ _ _ (Ne.symm hne)]
        exact Chats.get_set_same _ _ _
      · exact Chats.get_set_same _ _ _
    · exact Chats.get_set_same _ _ _
  · unfold createNewChat
    apply switchToChat_currentChatId_of_strings
    intro hp chat hget
    by_cases hsame : s.currentChatId = .str (utf16 "chat_" ++ utf16 (toString idClock))
    · simp only [hsame, ChatId.key, Chats.get_set_same, Option.some.injEq] at hget
      rw [← hget]
      rfl
    · have hne := ChatId.key_ne_new s.currentChatId (utf16 (toString idClock)) hsame
      simp only [Chats.get_set_other _ _ _ _ hne] at hget
      exact hstrings hp chat hget
  · intro key chat hget
    exact createNewChat_get_of_fresh host idClock createdClock now s hfresh key chat hget

/-- The amended C13 on a new chat opened while a confirmation is pending. -/
theorem createNewChat_fresh_witness :
    (run asciiHost initialState pendingTrace).chats.get (utf16 "chat_9") = none ∧
    (createNewChat asciiHost 9 10 11
      (run asciiHost initialState pendingTrace)).state.chats.get (utf16 "chat_9") =
      some { id := utf16 "chat_9", title := utf16 "New Chat", messages := [], created := 10 } ∧
    (createNewChat asciiHost 9 10 11
      (run asciiHost initialState pendingTrace)).state.currentChatId = .str (utf16 "chat_9") :=
  have h := createNewChat_fresh asciiHost 9 10 11 (run asciiHost initialState pendingTrace)
    (by decide) (by decide)
  ⟨by decide, h.2.1.trans (by decide), h.2.2.1.trans (by decide)⟩

/-! ## One request in flight -/

/-- A call of `sendMessage` that issues a request leaves the input surface
disabled. -/
theorem sendMessageStart_inputDisabled (host : Host) (now : Nat) (rawInput : JsString)
    (s : State) (request : Request)
    (h : (sendMessageStart host now rawInput s).2 = some request) :
    (sendMessageStart host now rawInput s).1.state.inputDisabled = true := by
  obtain ⟨-, -, hstart, -⟩ := sendMessageStart_of_request host now rawInput s request h
  rw [hstart]
  rfl

theorem Page.step_oneInFlight (host : Host) (p : Page) (e : PageEvent)
    (h : oneInFlight p) : oneInFlight (p.step host e) := by
  obtain ⟨hlen, hdis⟩ := h
  cases e with
  | createNewChat idClock createdClock now =>
    exact ⟨hlen, fun hne => by
      simpa [Page.step, createNewChat_inputDisabled] using hdis hne⟩
  | switchToChat now chatId =>
    exact ⟨hlen, fun hne => by
      simpa [Page.step, switchToChat_inputDisabled] using hdis hne⟩
  | deleteChat now chatId =>
    exact ⟨hlen, fun hne => by
      simpa [Page.step, deleteChat_inputDisabled] using hdis hne⟩
  | send now rawInput =>
    by_cases hd : p.state.inputDisabled = true
    · simpa [Page.step, deliverSend, hd, oneInFlight] using And.intro hlen hdis
    · have hemp : p.outstanding = [] := by
        by_contra hne
        exact hd (hdis hne)
      have hflag := sendMessageStart_inputDisabled host now rawInput p.state
      simp only [Page.step, deliverSend, hd, if_false]
      cases hstart : sendMessageStart host now rawInput p.state with
      | mk r request =>
        rw [hstart] at hflag
        cases request with
        | none => simp [oneInFlight, hemp]
        | some request =>
          have hr : r.state.inputDisabled = true := hflag request rfl
          simp [oneInFlight, hemp, hr]
  | settle now catchClock outcome =>
    cases hout : p.outstanding with
    | nil => simp [Page.step, hout, oneInFlight]
    | cons request rest =>
      have hrest : rest = [] := by
        rw [hout] at hlen
        simpa using hlen
      simp [Page.step, hout, hrest, oneInFlight]

theorem Page.run_oneInFlight (host : Host) (p : Page)
    (events : List PageEvent) (h : oneInFlight p) :
    oneInFlight (p.run host events) := by
  induction events generalizing p with
  | nil => simpa [Page.run] using h
  | cons e rest ih =>
    simpa [Page.run] using ih (p.step host e) (Page.step_oneInFlight host p e h)

/-- C14, turn exclusivity: on a page that starts without a request in flight,
after every sequence of events at most one request is in flight; and while one
is, a further attempt to send is turned down by the disabled input surface
and changes nothing, so it starts no second request. -/
theorem turn_exclusivity (host : Host) (s : State)
    (events : List PageEvent) :
    ((Page.mk s []).run host events).outstanding.length ≤ 1 ∧
    (((Page.mk s []).run host events).outstanding ≠ [] →
      ∀ (now : Nat) (rawInput : JsString),
        ((Page.mk s []).run host events).step host (.send now rawInput) =
          (Page.mk s []).run host events) := by
  have hinv := Page.run_oneInFlight host (Page.mk s []) events (by simp [oneInFlight])
  refine ⟨hinv.1, ?_⟩
  intro hne now rawInput
  simp [Page.step, deliverSend, hinv.2 hne]

/-- C14 on a turn in flight: a request is out, the user switches to another
chat and tries to send there; the attempt changes nothing and the one request
stays the only one. -/
theorem turn_exclusivity_witness :
    ((Page.mk (onLoad asciiHost none 1 1 1).state []).run asciiHost
      [.createNewChat 2 2 2, .send 3 (utf16 "reset my password"),
        .switchToChat 4 (.str (utf16 "chat_1"))]).outstanding =
      [{ query := utf16 "reset my password"
         chat_id := .str (utf16 "chat_2")
         conversation_history :=
          [{ role := utf16 "user", content := .str (utf16 "reset my password"),
             timestamp := 3 }]
         pending_action := .null
         pending_state := .null
         original_query := .null }] ∧
    ((Page.mk (onLoad asciiHost none 1 1 1).state []).run asciiHost
      [.createNewChat 2 2 2, .send 3 (utf16 "reset my password"),
        .switchToChat 4 (.str (utf16 "chat_1"))]).step asciiHost
        (.send 5 (utf16 "and my laptop")) =
      (Page.mk (onLoad asciiHost none 1 1 1).state []).run asciiHost
        [.createNewChat 2 2 2, .send 3 (utf16 "reset my password"),
          .switchToChat 4 (.str (utf16 "chat_1"))] :=
  ⟨by decide,
    (turn_exclusivity asciiHost (onLoad asciiHost none 1 1 1).state
      [.createNewChat 2 2 2, .send 3 (utf16 "reset my password"),
        .switchToChat 4 (.str (utf16 "chat_1"))]).2 (by decide) 5 (utf16 "and my laptop")⟩

/-! ## Cancellation when the active thread is deleted -/

/-- C15 at the failing input: after `pendingTrace`, with two chats, the second
one active and a confirmation pending in it, `deleteChat` of the active chat
returns with the three session fields `null` and `chat_1` active, and the
store that remains holds no `system` message at all: `switchToChat` calls
`addSystemMessage` when the thread it would write to has just been deleted.
The same state under `switchToChat` does get the notice. -/
theorem deleteChat_cancels_without_notice :
    isPending (run asciiHost initialState pendingTrace) = true ∧
    sessionPopulated (run asciiHost initialState pendingTrace) ∧
    (run asciiHost initialState pendingTrace).currentChatId = .str (utf16 "chat_2") ∧
    (run asciiHost initialState pendingTrace).chats.length = 2 ∧
    deleteChat asciiHost 9 (.str (utf16 "chat_2")) (run asciiHost initialState pendingTrace) =
      { state :=
          { chats :=
              [(utf16 "chat_1",
                { id := utf16 "chat_1", title := utf16 "New Chat", messages := [],
                  created := 1 })]
            currentChatId := .str (utf16 "chat_1")
            pendingAction := .null
            pendingState := .null
            originalQuery := .null
            inputDisabled := false }
        thrown := none } ∧
    messagesOf (utf16 "chat_2") (switchToChat asciiHost 9 (.str (utf16 "chat_1"))
        (run asciiHost initialState pendingTrace)).state =
      [{ role := utf16 "user", content := .str (utf16 "reset my password"), timestamp := 3 },
        { role := utf16 "assistant", content := .str (utf16 "Shall I open a ticket?"),
          timestamp := 4 },
        { role := utf16 "system", content := .str (utf16 "Pending action cancelled."),
          timestamp := 9 }] := by
  decide

/-! ## Messages are only appended -/

theorem messagesKept_refl (s : State) : messagesKept s s :=
  fun _ chat h => ⟨chat, h, List.prefix_refl _⟩

theorem messagesKept_trans {s t u : State} (hst : messagesKept s t) (htu : messagesKept t u) :
    messagesKept s u := by
  intro key chat h
  obtain ⟨chat1, h1, hp1⟩ := hst key chat h
  obtain ⟨chat2, h2, hp2⟩ := htu key chat1 h1
  exact ⟨chat2, h2, hp1.trans hp2⟩

theorem messagesKept_of_chats_eq {s t u : State} (h : u.chats = t.chats)
    (hst : messagesKept s t) : messagesKept s u := by
  intro key chat hget
  obtain ⟨chat1, h1, hp1⟩ := hst key chat hget
  exact ⟨chat1, by rw [h]; exact h1, hp1⟩

theorem pushMessage_messagesKept (now : Nat) (role : JsString) (content : JsVal) (s : State) :
    messagesKept s (pushMessage now role content s) := by
  intro key chat hget
  by_cases hkey : key = s.currentChatId.key
  · subst hkey
    obtain ⟨chat1, h1, hmsg, -, -⟩ := pushMessage_get now role content s chat hget
    exact ⟨chat1, h1, by rw [hmsg]; exact List.prefix_append _ _⟩
  · exact ⟨chat, by rw [pushMessage_get_other _ _ _ _ key hkey]; exact hget,
      List.prefix_refl _⟩

theorem addMessage_messagesKept (host : Host) (now : Nat) (role : JsString) (content : JsVal)
    (s : State) : messagesKept s (addMessage host now role content s).state := by
  rw [addMessage_state]
  exact pushMessage_messagesKept now role content s

theorem switchToChat_messagesKept (host : Host) (now : Nat) (chatId : ChatId) (s : State) :
    messagesKept s (switchToChat host now chatId s).state := by
  have h := switchToChat_chats host now chatId s
  split at h
  · exact messagesKept_of_chats_eq h (pushMessage_messagesKept now _ _ s)
  · exact messagesKept_of_chats_eq h (messagesKept_refl s)

theorem handleResponse_messagesKept (host : Host) (now : Nat) (data : Response) (s : State) :
    messagesKept s (handleResponse host now data s).state := by
  rcases handleResponse_chats host now data s with h | ⟨content, h⟩
  · exact messagesKept_of_chats_eq h (messagesKept_refl s)
  · exact messagesKept_of_chats_eq h (pushMessage_messagesKept now _ content s)

theorem sendMessageStart_messagesKept (host : Host) (now : Nat) (rawInput : JsString)
    (s : State) : messagesKept s (sendMessageStart host now rawInput s).1.state := by
  rcases sendMessageStart_chats host now rawInput s with h | h
  · exact messagesKept_of_chats_eq h (messagesKept_refl s)
  · exact messagesKept_of_chats_eq h (pushMessage_messagesKept now _ _ s)

theorem sendMessageFinish_messagesKept (host : Host) (now catchClock : Nat)
    (outcome : Outcome) (s : State) :
    messagesKept s (sendMessageFinish host now catchClock outcome s).state := by
  rcases sendMessageFinish_state host now catchClock outcome s with
    ⟨data, -, h⟩ | ⟨data, error, -, h⟩ | ⟨errorMessage, -, h⟩
  · rw [h]
    exact messagesKept_of_chats_eq rfl (handleResponse_messagesKept host now data s)
  · rw [h]
    exact messagesKept_of_chats_eq rfl
      (messagesKept_trans (handleResponse_messagesKept host now data s)
        (pushMessage_messagesKept catchClock _ _ _))
  · rw [h]
    exact messagesKept_of_chats_eq rfl (pushMessage_messagesKept now _ _ s)

theorem sendMessage_messagesKept (host : Host) (userClock replyClock catchClock : Nat)
    (rawInput : JsString) (outcome : Outcome) (s : State) :
    messagesKept s
      (sendMessage host userClock replyClock catchClock rawInput outcome s).state := by
  have hstart := sendMessageStart_messagesKept host userClock rawInput s
  unfold sendMessage
  cases h : sendMessageStart host userClock rawInput s with
  | mk r request =>
    rw [h] at hstart
    cases request with
    | none => exact hstart
    | some request =>
      exact messagesKept_trans hstart
        (sendMessageFinish_messagesKept host replyClock catchClock outcome r.state)

/-- C16 as stated fails: a chat `chat_1` holds the message of the user;
`createNewChat` at the clock value 1 writes a new, empty thread under the same
key, so the thread stays in the store and its message is gone. -/
theorem createNewChat_drops_messages :
    messagesOf (utf16 "chat_1")
        (run asciiHost initialState [.createNewChat 1 1 1, .sendMessage 2 (utf16 "hello")]) =
      [{ role := utf16 "user", content := .str (utf16 "hello"), timestamp := 2 }] ∧
    (createNewChat asciiHost 1 3 3
      (run asciiHost initialState
        [.createNewChat 1 1 1, .sendMessage 2 (utf16 "hello")])).state.chats.get
        (utf16 "chat_1") =
      some { id := utf16 "chat_1", title := utf16 "New Chat", messages := [], created := 3 } ∧
    ¬ messagesKept
      (run asciiHost initialState [.createNewChat 1 1 1, .sendMessage 2 (utf16 "hello")])
      (createNewChat asciiHost 1 3 3
        (run asciiHost initialState
          [.createNewChat 1 1 1, .sendMessage 2 (utf16 "hello")])).state := by
  refine ⟨by decide, by decide, ?_⟩
  intro h
  obtain ⟨chat1, hget, hpre⟩ := h (utf16 "chat_1")
    { id := utf16 "chat_1", title := utf16 "hello",
      messages := [{ role := utf16 "user", content := .str (utf16 "hello"), timestamp := 2 }],
      created := 1 } (by decide)
  have hev : (createNewChat asciiHost 1 3 3
      (run asciiHost initialState
        [.createNewChat 1 1 1, .sendMessage 2 (utf16 "hello")])).state.chats.get
        (utf16 "chat_1") =
      some { id := utf16 "chat_1", title := utf16 "New Chat", messages := [], created := 3 } := by
    decide
  rw [hev] at hget
  have hchat := Option.some.inj hget
  rw [← hchat] at hpre
  simp at hpre

/-- C16, amended: under `addMessage`, `sendMessage` (each of its two halves and
the whole turn), `handleResponse`, `switchToChat`, and `createNewChat` at a
clock value whose id is not a key of the store, whether the call returns or
throws, every thread of the store is still there afterwards and the messages it
held are the first messages it holds, unchanged and in the same order. -/
theorem messages_append_only (host : Host) (s : State) :
    (∀ (now : Nat) (role : JsString) (content : JsVal),
      messagesKept s (addMessage host now role content s).state) ∧
    (∀ (now : Nat) (rawInput : JsString),
      messagesKept s (sendMessageStart host now rawInput s).1.state) ∧
    (∀ (now catchClock : Nat) (outcome : Outcome),
      messagesKept s (sendMessageFinish host now catchClock outcome s).state) ∧
    (∀ (userClock replyClock catchClock : Nat) (rawInput : JsString) (outcome : Outcome),
      messagesKept s
        (sendMessage host userClock replyClock catchClock rawInput outcome s).state) ∧
    (∀ (now : Nat) (data : Response), messagesKept s (handleResponse host now data s).state) ∧
    (∀ (now : Nat) (chatId : ChatId), messagesKept s (switchToChat host now chatId s).state) ∧
    (∀ (idClock createdClock now : Nat),
      s.chats.get (utf16 "chat_" ++ utf16 (toString idClock)) = none →
      messagesKept s (createNewChat host idClock createdClock now s).state) := by
  refine ⟨fun now role content => addMessage_messagesKept host now role content s,
    fun now rawInput => sendMessageStart_messagesKept host now rawInput s,
    fun now catchClock outcome => sendMessageFinish_messagesKept host now catchClock outcome s,
    fun userClock replyClock catchClock rawInput outcome =>
      sendMessage_messagesKept host userClock replyClock catchClock rawInput outcome s,
    fun now data => handleResponse_messagesKept host now data s,
    fun now chatId => switchToChat_messagesKept host now chatId s, ?_⟩
  intro idClock createdClock now hfresh key chat hget
  have hafter := createNewChat_get_of_fresh host idClock createdClock now s hfresh key chat hget
  refine ⟨_, hafter, ?_⟩
  split
  · exact List.prefix_append _ _
  · exact List.prefix_refl _

/-- The amended C16 on a new chat opened while a confirmation is pending: the
thread that was active keeps its two messages in front of the notice. -/
theorem messages_append_only_witness :
    (run asciiHost initialState pendingTrace).chats.get (utf16 "chat_9") = none ∧
    messagesKept (run asciiHost initialState pendingTrace)
      (createNewChat asciiHost 9 9 9 (run asciiHost initialState pendingTrace)).state :=
  ⟨by decide,
    (messages_append_only asciiHost (run asciiHost initialState pendingTrace)).2.2.2.2.2.2
      9 9 9 (by decide)⟩

/-! ## The active thread exists -/

theorem isSome_of_messagesKept {s t : State} (h : messagesKept s t) (key : JsString)
    (hkey : (s.chats.get key).isSome = true) : (t.chats.get key).isSome = true := by
  obtain ⟨chat, hget⟩ := Option.isSome_iff_exists.mp hkey
  obtain ⟨chat1, hget1, -⟩ := h key chat hget
  simp [hget1]

theorem activeThreadPresent_iff (s : State) :
    activeThreadPresent s = true ↔
      ∃ key, s.currentChatId = .str key ∧ (s.chats.get key).isSome = true := by
  unfold activeThreadPresent
  cases hcur : s.currentChatId with
  | null => simp
  | undefined => simp
  | str key => simp

/-- A switch to a thread of the store ends with an active thread that is in
the store: the thread asked for, or, when the notice could not be shown, the
thread that was active, which is then a thread of the store. -/
theorem switchToChat_activeThreadPresent (host : Host) (now : Nat) (key : JsString) (s : State)
    (h : (s.chats.get key).isSome = true)
    (hcur : (∃ k, s.currentChatId = .str k) ∨ isPending s = false) :
    activeThreadPresent (switchToChat host now (.str key) s).state = true := by
  have hkept := switchToChat_messagesKept host now (.str key) s
  rw [activeThreadPresent_iff]
  rcases switchToChat_currentChatId host now (.str key) s with hto | ⟨hstay, hp, error, hthrown⟩
  · exact ⟨key, hto, isSome_of_messagesKept hkept key h⟩
  · rcases hcur with ⟨k, hk⟩ | hnp
    · refine ⟨k, hstay.trans hk, isSome_of_messagesKept hkept k ?_⟩
      cases hget : s.chats.get k with
      | some chat => rfl
      | none =>
        exfalso
        have hmissing : s.chats.get s.currentChatId.key = none := by
          rw [hk]; exact hget
        rw [addMessage_of_missing host now _ _ _ hmissing] at hthrown
        exact Option.noConfusion hthrown
    · rw [hnp] at hp
      exact Bool.noConfusion hp

theorem createNewChat_activeThreadPresent (host : Host) (idClock createdClock now : Nat)
    (s : State) (hcur : (∃ k, s.currentChatId = .str k) ∨ isPending s = false) :
    activeThreadPresent (createNewChat host idClock createdClock now s).state = true := by
  unfold createNewChat
  apply switchToChat_activeThreadPresent
  · simp [Chats.get_set_same]
  · exact hcur

theorem deleteChat_activeThreadPresent (host : Host) (now : Nat) (key : JsString) (s : State)
    (h : activeThreadPresent s = true) :
    activeThreadPresent (deleteChat host now (.str key) s).state = true := by
  obtain ⟨active, hcur, hsome⟩ := (activeThreadPresent_iff s).mp h
  unfold deleteChat
  by_cases h1 : s.chats.length = 1
  · simpa [h1] using h
  · simp only [h1, if_false]
    have hpos : 0 < s.chats.length := by
      apply List.length_pos.mpr
      intro hnil
      simp [hnil, Chats.get] at hsome
    have hdel := Chats.length_le_length_delete_succ key s.chats
    have hrem : s.chats.delete key ≠ [] := by
      apply List.length_pos.mp
      omega
    split
    · obtain ⟨first, hfirst, hfsome⟩ := firstKey_present _ hrem
      simp only [ChatId.key]
      rw [hfirst]
      exact switchToChat_activeThreadPresent host now first _ hfsome (Or.inl ⟨active, hcur⟩)
    · rename_i hc
      have heq : active ≠ key := by
        intro hk
        apply hc
        rw [← hk]
        exact hcur
      rw [activeThreadPresent_iff]
      exact ⟨active, hcur, by simpa [ChatId.key, Chats.get_delete_other _ _ _ heq] using hsome⟩

theorem activeThreadPresent_of_messagesKept {s t : State} (hkept : messagesKept s t)
    (hcur : t.currentChatId = s.currentChatId) (h : activeThreadPresent s = true) :
    activeThreadPresent t = true := by
  obtain ⟨active, hact, hsome⟩ := (activeThreadPresent_iff s).mp h
  rw [activeThreadPresent_iff]
  exact ⟨active, by rw [hcur, hact], isSome_of_messagesKept hkept active hsome⟩

/-- An admissible event keeps the active thread in the store. -/
theorem Event.apply_activeThreadPresent (host : Host) (s : State)
    (e : Event) (h : activeThreadPresent s = true) (he : e.admissible s = true) :
    activeThreadPresent (e.apply host s) = true := by
  have hstr : ∃ k, s.currentChatId = .str k := by
    obtain ⟨active, hcur, -⟩ := (activeThreadPresent_iff s).mp h
    exact ⟨active, hcur⟩
  cases e with
  | createNewChat idClock createdClock now =>
    exact createNewChat_activeThreadPresent host idClock createdClock now s (Or.inl hstr)
  | switchToChat now chatId =>
    cases chatId with
    | str key => exact switchToChat_activeThreadPresent host now key s he (Or.inl hstr)
    | null => simp [Event.admissible] at he
    | undefined => simp [Event.admissible] at he
  | deleteChat now chatId =>
    cases chatId with
    | str key => exact deleteChat_activeThreadPresent host now key s h
    | null => simp [Event.admissible] at he
    | undefined => simp [Event.admissible] at he
  | sendMessage now rawInput =>
    exact activeThreadPresent_of_messagesKept (sendMessageStart_messagesKept host now rawInput s)
      (sendMessageStart_currentChatId host now rawInput s) h
  | handleResponse now catchClock data =>
    exact activeThreadPresent_of_messagesKept
      (sendMessageFinish_messagesKept host now catchClock (.replied data) s)
      (sendMessageFinish_currentChatId host now catchClock (.replied data) s) h
  | requestFailed now errorMessage =>
    exact activeThreadPresent_of_messagesKept
      (sendMessageFinish_messagesKept host now now (.failed errorMessage) s)
      (sendMessageFinish_currentChatId host now now (.failed errorMessage) s) h

/-- The `DOMContentLoaded` handler ends with an active thread that is in the
store, whatever the storage held. -/
theorem onLoad_activeThreadPresent (host : Host) (stored : Option Chats)
    (idClock createdClock now : Nat) :
    activeThreadPresent (onLoad host stored idClock createdClock now).state = true := by
  cases stored with
  | none =>
    have h : onLoad host none idClock createdClock now =
        createNewChat host idClock createdClock now initialState := by
      simp [onLoad, initialState]
    rw [h]
    exact createNewChat_activeThreadPresent host idClock createdClock now _ (Or.inr rfl)
  | some chats =>
    by_cases hlen : chats.length = 0
    · have h : onLoad host (some chats) idClock createdClock now =
          createNewChat host idClock createdClock now { initialState with chats := chats } := by
        simp [onLoad, hlen]
      rw [h]
      exact createNewChat_activeThreadPresent host idClock createdClock now _ (Or.inr rfl)
    · have h : onLoad host (some chats) idClock createdClock now =
          switchToChat host now chats.firstKey { initialState with chats := chats } := by
        simp [onLoad, hlen]
      have hne : chats ≠ [] := by
        intro hnil
        exact hlen (by rw [hnil]; rfl)
      obtain ⟨first, hfirst, hsome⟩ := firstKey_present chats hne
      rw [h, hfirst]
      exact switchToChat_activeThreadPresent host now first _ hsome (Or.inr rfl)

/-- C17, a valid active thread: from the state in which the `DOMContentLoaded`
handler leaves the script (a new chat when the store is empty, else a switch to
the first id of the store loaded), after every sequence of `createNewChat`,
`deleteChat` of a string id, `switchToChat` to the id of a thread of the
store, `sendMessage`, failed calls and `handleResponse`, whether the calls
return or throw, `currentChatId` is the id of a thread that is in the
store. -/
theorem active_thread_present (host : Host) (stored : Option Chats)
    (idClock createdClock now : Nat) (events : List Event)
    (hadm : admissibleRun host (onLoad host stored idClock createdClock now).state events =
      true) :
    activeThreadPresent
      (run host (onLoad host stored idClock createdClock now).state events) = true := by
  have hinit := onLoad_activeThreadPresent host stored idClock createdClock now
  generalize (onLoad host stored idClock createdClock now).state = s at hadm hinit
  induction events generalizing s with
  | nil => simpa [run] using hinit
  | cons e rest ih =>
    simp only [admissibleRun, Bool.and_eq_true] at hadm
    simpa [run] using
      ih (e.apply host s) hadm.2
        (Event.apply_activeThreadPresent host s e hinit hadm.1)

/-- C17 on a store of two chats loaded at start-up: a turn, a switch, the
deletion of the active chat and the deletion of an unknown id. -/
theorem active_thread_present_witness :
    admissibleRun asciiHost
      (onLoad asciiHost (some
        [(utf16 "chat_1",
            { id := utf16 "chat_1", title := utf16 "New Chat", messages := [], created := 1 }),
          (utf16 "chat_2",
            { id := utf16 "chat_2", title := utf16 "New Chat", messages := [], created := 2 })])
        3 3 3).state
      [.sendMessage 4 (utf16 "reset my password"), .switchToChat 5 (.str (utf16 "chat_2")),
        .handleResponse 6 7 confirmationReply,
        .deleteChat 8 (.str (utf16 "chat_2")), .deleteChat 9 (.str (utf16 "chat_9"))] = true ∧
    (run asciiHost
      (onLoad asciiHost (some
        [(utf16 "chat_1",
            { id := utf16 "chat_1", title := utf16 "New Chat", messages := [], created := 1 }),
          (utf16 "chat_2",
            { id := utf16 "chat_2", title := utf16 "New Chat", messages := [], created := 2 })])
        3 3 3).state
      [.sendMessage 4 (utf16 "reset my password"), .switchToChat 5 (.str (utf16 "chat_2")),
        .handleResponse 6 7 confirmationReply,
        .deleteChat 8 (.str (utf16 "chat_2")),
        .deleteChat 9 (.str (utf16 "chat_9"))]).currentChatId = .str (utf16 "chat_1") ∧
    activeThreadPresent (run asciiHost
      (onLoad asciiHost (some
        [(utf16 "chat_1",
            { id := utf16 "chat_1", title := utf16 "New Chat", messages := [], created := 1 }),
          (utf16 "chat_2",
            { id := utf16 "chat_2", title := utf16 "New Chat", messages := [], created := 2 })])
        3 3 3).state
      [.sendMessage 4 (utf16 "reset my password"), .switchToChat 5 (.str (utf16 "chat_2")),
        .handleResponse 6 7 confirmationReply,
        .deleteChat 8 (.str (utf16 "chat_2")), .deleteChat 9 (.str (utf16 "chat_9"))]) = true :=
  ⟨by decide, by decide,
    active_thread_present asciiHost
      (some
        [(utf16 "chat_1",
            { id := utf16 "chat_1", title := utf16 "New Chat", messages := [], created := 1 }),
          (utf16 "chat_2",
            { id := utf16 "chat_2", title := utf16 "New Chat", messages := [], created := 2 })])
      3 3 3 _ (by decide)⟩

/-! ## What a message append leaves alone -/

/-- The frame of `addMessage`: keys, active thread id and every thread but the
active one stay; the active thread keeps its id and creation time; without an
active thread in the store the call returns and nothing has changed. -/
theorem addMessage_frame (host : Host) (now : Nat) (role : JsString) (content : JsVal)
    (s : State) :
    (addMessage host now role content s).state.chats.keys = s.chats.keys ∧
    (addMessage host now role content s).state.currentChatId = s.currentChatId ∧
    (∀ key, key ≠ s.currentChatId.key →
      (addMessage host now role content s).state.chats.get key = s.chats.get key) ∧
    (∀ chat, s.chats.get s.currentChatId.key = some chat →
      ∃ chat1, (addMessage host now role content s).state.chats.get s.currentChatId.key =
          some chat1 ∧
        chat1.id = chat.id ∧ chat1.created = chat.created) ∧
    (s.chats.get s.currentChatId.key = none →
      addMessage host now role content s = { state := s, thrown := none }) := by
  rw [addMessage_state]
  refine ⟨pushMessage_keys now role content s, pushMessage_currentChatId now role content s,
    fun key hkey => pushMessage_get_other now role content s key hkey, ?_, ?_⟩
  · intro chat hget
    obtain ⟨chat1, h1, -, hid, hcreated⟩ := pushMessage_get now role content s chat hget
    exact ⟨chat1, h1, hid, hcreated⟩
  · intro hnone
    exact addMessage_of_missing host now role content s hnone

/-- C19, frame of message appends: `addMessage` and `handleResponse`, whether
they return or throw, leave the set of thread ids and the active thread id as
they are and change no thread other than the one that is active when they run,
of which they keep the id and the creation time; when the active id names no
thread of the store, `addMessage` returns and has changed nothing at all. -/
theorem message_append_frame (host : Host) (s : State) :
    (∀ (now : Nat) (role : JsString) (content : JsVal),
      (addMessage host now role content s).state.chats.keys = s.chats.keys ∧
      (addMessage host now role content s).state.currentChatId = s.currentChatId ∧
      (∀ key, key ≠ s.currentChatId.key →
        (addMessage host now role content s).state.chats.get key = s.chats.get key) ∧
      (∀ chat, s.chats.get s.currentChatId.key = some chat →
        ∃ chat1, (addMessage host now role content s).state.chats.get s.currentChatId.key =
            some chat1 ∧
          chat1.id = chat.id ∧ chat1.created = chat.created) ∧
      (s.chats.get s.currentChatId.key = none →
        addMessage host now role content s = { state := s, thrown := none })) ∧
    (∀ (now : Nat) (data : Response),
      (handleResponse host now data s).state.chats.keys = s.chats.keys ∧
      (handleResponse host now data s).state.currentChatId = s.currentChatId ∧
      (∀ key, key ≠ s.currentChatId.key →
        (handleResponse host now data s).state.chats.get key = s.chats.get key) ∧
      (∀ chat, s.chats.get s.currentChatId.key = some chat →
        ∃ chat1, (handleResponse host now data s).state.chats.get s.currentChatId.key =
            some chat1 ∧
          chat1.id = chat.id ∧ chat1.created = chat.created)) := by
  refine ⟨fun now role content => addMessage_frame host now role content s, ?_⟩
  intro now data
  refine ⟨?_, handleResponse_currentChatId host now data s, ?_, ?_⟩
  · rcases handleResponse_chats host now data s with h | ⟨content, h⟩
    · rw [h]
    · rw [h]; exact pushMessage_keys now _ content s
  · intro key hkey
    rcases handleResponse_chats host now data s with h | ⟨content, h⟩
    · rw [h]
    · rw [h]; exact pushMessage_get_other now _ content s key hkey
  · intro chat hget
    rcases handleResponse_chats host now data s with h | ⟨content, h⟩
    · rw [h]; exact ⟨chat, hget, rfl, rfl⟩
    · rw [h]
      obtain ⟨chat1, h1, -, hid, hcreated⟩ := pushMessage_get now _ content s chat hget
      exact ⟨chat1, h1, hid, hcreated⟩

/-- C19 on two chats: a reply handled while `chat_3` is active leaves `chat_1`
as it was; and `addMessage` before any chat exists changes nothing. -/
theorem message_append_frame_witness :
    (handleResponse asciiHost 4
      { type := .str (utf16 "INFO_QUERY")
        content := [(utf16 "answer", .str (utf16 "Use the self-service portal."))]
        pending_action := .undefined
        pending_state := .undefined
        original_query := .undefined }
      (run asciiHost initialState
        [.createNewChat 1 1 1, .sendMessage 2 (utf16 "hello"),
          .createNewChat 3 3 3])).state.chats.get (utf16 "chat_1") =
      some
        { id := utf16 "chat_1", title := utf16 "hello",
          messages := [{ role := utf16 "user", content := .str (utf16 "hello"), timestamp := 2 }],
          created := 1 } ∧
    addMessage asciiHost 1 (utf16 "user") (.str (utf16 "hello")) initialState =
      { state := initialState, thrown := none } :=
  ⟨(((message_append_frame asciiHost (run asciiHost initialState
      [.createNewChat 1 1 1, .sendMessage 2 (utf16 "hello"), .createNewChat 3 3 3])).2 4
      { type := .str (utf16 "INFO_QUERY")
        content := [(utf16 "answer", .str (utf16 "Use the self-service portal."))]
        pending_action := .undefined
        pending_state := .undefined
        original_query := .undefined }).2.2.1 (utf16 "chat_1") (by decide)).trans (by decide),
    ((message_append_frame asciiHost initialState).1 1 (utf16 "user")
      (.str (utf16 "hello"))).2.2.2.2 (by decide)⟩

/-! ## A reply after a switch -/

/-- C20, the reply lands in the thread that is active when it arrives: two
chats are created and `chat_2` is active; `sendMessage` runs up to its
`await`, so a request with `chat_id` `chat_2` is in flight; the user switches
to `chat_1`; the `CONFIRMATION_NEEDED` reply is handled.  Its assistant
message is then the last message of `chat_1` and is not among the messages of
`chat_2`, and the session triple is the one of the reply while `chat_1` is
active. -/
theorem reply_lands_in_active_thread :
    (sendMessageStart asciiHost 3 (utf16 "reset my password")
      (run asciiHost initialState [.createNewChat 1 1 1, .createNewChat 2 2 2])).2 =
      some
        { query := utf16 "reset my password"
          chat_id := .str (utf16 "chat_2")
          conversation_history :=
            [{ role := utf16 "user", content := .str (utf16 "reset my password"),
               timestamp := 3 }]
          pending_action := .null
          pending_state := .null
          original_query := .null } ∧
    (run asciiHost initialState
      [.createNewChat 1 1 1, .createNewChat 2 2 2, .sendMessage 3 (utf16 "reset my password"),
        .switchToChat 4 (.str (utf16 "chat_1"))]).currentChatId = .str (utf16 "chat_1") ∧
    (messagesOf (utf16 "chat_1") (handleResponse asciiHost 5 confirmationReply
      (run asciiHost initialState
        [.createNewChat 1 1 1, .createNewChat 2 2 2,
          .sendMessage 3 (utf16 "reset my password"),
          .switchToChat 4 (.str (utf16 "chat_1"))])).state).getLast? =
      some { role := utf16 "assistant", content := .str (utf16 "Shall I open a ticket?"),
             timestamp := 5 } ∧
    ¬ ({ role := utf16 "assistant", content := .str (utf16 "Shall I open a ticket?"),
         timestamp := 5 } ∈
      messagesOf (utf16 "chat_2") (handleResponse asciiHost 5 confirmationReply
        (run asciiHost initialState
          [.createNewChat 1 1 1, .createNewChat 2 2 2,
            .sendMessage 3 (utf16 "reset my password"),
            .switchToChat 4 (.str (utf16 "chat_1"))])).state) ∧
    messagesOf (utf16 "chat_2") (handleResponse asciiHost 5 confirmationReply
      (run asciiHost initialState
        [.createNewChat 1 1 1, .createNewChat 2 2 2,
          .sendMessage 3 (utf16 "reset my password"),
          .switchToChat 4 (.str (utf16 "chat_1"))])).state =
      [{ role := utf16 "user", content := .str (utf16 "reset my password"), timestamp := 3 }] ∧
    (handleResponse asciiHost 5 confirmationReply
      (run asciiHost initialState
        [.createNewChat 1 1 1, .createNewChat 2 2 2,
          .sendMessage 3 (utf16 "reset my password"),
          .switchToChat 4 (.str (utf16 "chat_1"))])).state.session =
      (.str (utf16 "create_ticket"), .obj (utf16 "[object Object]"),
        .str (utf16 "reset my password")) ∧
    (handleResponse asciiHost 5 confirmationReply
      (run asciiHost initialState
        [.createNewChat 1 1 1, .createNewChat 2 2 2,
          .sendMessage 3 (utf16 "reset my password"),
          .switchToChat 4 (.str (utf16 "chat_1"))])).state.currentChatId =
      .str (utf16 "chat_1") ∧
    (handleResponse asciiHost 5 confirmationReply
      (run asciiHost initialState
        [.createNewChat 1 1 1, .createNewChat 2 2 2,
          .sendMessage 3 (utf16 "reset my password"),
          .switchToChat 4 (.str (utf16 "chat_1"))])).thrown = none := by
  decide

/-! ## The keys of the store stay pairwise different -/

theorem Chats.keys_set_of_get_none (key : JsString) (chat : ChatThread) (c : Chats)
    (h : c.get key = none) : (c.set key chat).keys = c.keys ++ [key] := by
  induction c with
  | nil => simp [Chats.set, Chats.keys]
  | cons kv rest ih =>
    obtain ⟨k, v⟩ := kv
    by_cases hk : k = key
    · simp [Chats.get, hk] at h
    · simp [Chats.get, hk] at h
      have := ih h
      simp only [Chats.keys] at this
      simp [Chats.set, Chats.keys, hk, this]

theorem Chats.not_mem_keys_of_get_none (key : JsString) (c : Chats) (h : c.get key = none) :
    key ∉ c.keys := by
  induction c with
  | nil => simp [Chats.keys]
  | cons kv rest ih =>
    obtain ⟨k, v⟩ := kv
    by_cases hk : k = key
    · simp [Chats.get, hk] at h
    · simp [Chats.get, hk] at h
      have := ih h
      simp only [Chats.keys] at this
      simp [Chats.keys, this, Ne.symm hk]

theorem Chats.keys_nodup_set (key : JsString) (chat : ChatThread) (c : Chats)
    (h : c.keys.Nodup) : (c.set key chat).keys.Nodup := by
  cases hget : c.get key with
  | some old => rw [Chats.keys_set_of_get key chat old c hget]; exact h
  | none =>
    rw [Chats.keys_set_of_get_none key chat c hget]
    apply List.Nodup.append h (List.nodup_singleton key)
    intro k hk hk1
    rw [List.mem_singleton] at hk1
    subst hk1
    exact Chats.not_mem_keys_of_get_none k c hget hk

theorem Chats.keys_delete_sublist (key : JsString) (c : Chats) :
    (c.delete key).keys.Sublist c.keys := by
  induction c with
  | nil => exact List.Sublist.refl _
  | cons kv rest ih =>
    obtain ⟨k, v⟩ := kv
    by_cases hk : k = key
    · simp only [Chats.delete, hk, if_true, Chats.keys, List.map_cons]
      exact List.sublist_cons_self _ _
    · simp only [Chats.delete, hk, if_false, Chats.keys, List.map_cons]
      exact List.Sublist.cons₂ _ ih

theorem switchToChat_keys (host : Host) (now : Nat) (chatId : ChatId) (s : State) :
    (switchToChat host now chatId s).state.chats.keys = s.chats.keys := by
  rw [switchToChat_chats]
  split
  · exact pushMessage_keys _ _ _ s
  · rfl

/-- Every event keeps the keys of the store pairwise different, as the keys of
the object `chats` are. -/
theorem Event.apply_keys_nodup (host : Host) (s : State) (e : Event)
    (h : s.chats.keys.Nodup) : (e.apply host s).chats.keys.Nodup := by
  cases e with
  | createNewChat idClock createdClock now =>
    simp only [Event.apply, ChatApp.createNewChat, switchToChat_keys]
    exact Chats.keys_nodup_set _ _ _ h
  | switchToChat now chatId =>
    simp only [Event.apply, switchToChat_keys]
    exact h
  | deleteChat now chatId =>
    simp only [Event.apply, ChatApp.deleteChat]
    by_cases h1 : s.chats.length = 1
    · simpa [h1] using h
    · simp only [h1, if_false]
      split
      · rw [switchToChat_keys]
        exact List.Nodup.sublist (Chats.keys_delete_sublist _ _) h
      · exact List.Nodup.sublist (Chats.keys_delete_sublist _ _) h
  | sendMessage now rawInput =>
    simp only [Event.apply]
    rcases sendMessageStart_chats host now rawInput s with hc | hc
    · rw [hc]; exact h
    · rw [hc, pushMessage_keys]; exact h
  | handleResponse now catchClock data =>
    simp only [Event.apply]
    have hr : (ChatApp.handleResponse host now data s).state.chats.keys = s.chats.keys := by
      rcases handleResponse_chats host now data s with hc | ⟨content, hc⟩
      · rw [hc]
      · rw [hc, pushMessage_keys]
    rcases sendMessageFinish_state host now catchClock (.replied data) s with
      ⟨data1, hd, hst⟩ | ⟨data1, error, hd, hst⟩ | ⟨errorMessage, hd, -⟩
    · cases hd
      rw [hst]
      show (ChatApp.handleResponse host now data s).state.chats.keys.Nodup
      rw [hr]; exact h
    · cases hd
      rw [hst]
      show (pushMessage _ _ _ (ChatApp.handleResponse host now data s).state).chats.keys.Nodup
      rw [pushMessage_keys, hr]; exact h
    · exact Outcome.noConfusion hd
  | requestFailed now errorMessage =>
    simp only [Event.apply]
    rcases sendMessageFinish_state host now now (.failed errorMessage) s with
      ⟨data1, hd, -⟩ | ⟨data1, error, hd, -⟩ | ⟨errorMessage1, -, hst⟩
    · exact Outcome.noConfusion hd
    · exact Outcome.noConfusion hd
    · rw [hst]
      show (pushMessage _ _ _ s).chats.keys.Nodup
      rw [pushMessage_keys]; exact h

/-- From a store whose keys are pairwise different, every sequence of events
leads to a store whose keys are pairwise different. -/
theorem run_keys_nodup (host : Host) (s : State) (events : List Event)
    (h : s.chats.keys.Nodup) : (run host s events).chats.keys.Nodup := by
  induction events generalizing s with
  | nil => simpa [run] using h
  | cons e rest ih => simpa [run] using ih (e.apply host s) (Event.apply_keys_nodup host s e h)

end ChatApp
